import Mathlib

/-!
Verification development for the `namespaceclass-operator` reconciliation
controller (`internal/controller/namespaceclass_controller.go`).

The controller code is shallowly embedded as pure Lean functions over an
explicit cluster state.  The cluster state store (controller-runtime client)
is modelled as association lists of objects, namespaces and classes, with
injectable per-key failures so that error paths of the Go code can be
exercised.  Each Go function that the claims reference is translated
one-to-one:

* `upsert`                          — lines 495-522
* `diffRemoved`                     — lines 524-532
* `toNameGVKMap`                    — lines 534-544
* `reconcileClassUpdates`           — lines 344-365
* `reconcileNamespaceClassDelete`   — lines 367-415
* `reconcileNamespaceCreate`        — lines 417-457
* `reconcileNamespaceForClass`      — lines 459-493
* `ensureFinalizer`                 — lines 296-302
* `finalizeClass`                   — lines 304-316
* `handleMissingNamespaceClass`     — lines 318-332
* `Reconcile`                       — lines 255-280
-/

namespace NSClass

/-- Annotation / label keys, from the `const` block of the controller. -/
def NamespaceClassNameKey : String := "namespaceclass.akuity.io/name"

def NamespaceClassCleanupKey : String := "namespaceclass.akuity.io/cleanup"

def NamespaceClassCleanupObsoleteKey : String := "namespaceclass.akuity.io/cleanup-obsolete"

def NamespaceClassFinalizerKey : String := "namespaceclass.kardolus.dev/finalizer"

/-- group/version/kind of a Kubernetes object. -/
structure GVK where
  group : String
  version : String
  kind : String
deriving DecidableEq, Repr

/-- A parsed unstructured object: identity, target namespace, concurrency
token (`resourceVersion`, 0 = unset) and opaque payload. -/
structure ParsedObj where
  gvk : GVK
  name : String
  ns : String
  resourceVersion : Nat
  payload : String
deriving DecidableEq, Repr

/-- A raw embedded resource (`runtime.RawExtension`): either malformed JSON
or a payload that parses to an identity plus body. -/
inductive RawExtension where
  | malformed (raw : String)
  | valid (gvk : GVK) (name : String) (payload : String)
deriving DecidableEq, Repr

/-- `obj.UnmarshalJSON(res.Raw)`: a malformed payload fails, a valid one
yields an unstructured object with no namespace and no resourceVersion. -/
def unmarshalJSON : RawExtension → Option ParsedObj
  | .malformed _ => none
  | .valid gvk name payload => some ⟨gvk, name, "", 0, payload⟩

/-- Addressable identity of a stored child object. -/
structure ObjKey where
  gvk : GVK
  name : String
  ns : String
deriving DecidableEq, Repr

def keyOf (o : ParsedObj) : ObjKey := ⟨o.gvk, o.name, o.ns⟩

/-- What the store keeps per child object. -/
structure StoredObj where
  resourceVersion : Nat
  payload : String
deriving DecidableEq, Repr

/-- A namespace: name, labels and its policy markers (annotations map). -/
structure KNamespace where
  name : String
  labels : List (String × String)
  annots : List (String × String)
deriving DecidableEq, Repr

/-- A NamespaceClass: spec resource templates, status `LastAppliedResources`,
deletion marker and finalizer list. -/
structure NamespaceClass where
  name : String
  deletionTimestamp : Option Nat
  finalizers : List String
  resources : List RawExtension
  lastAppliedResources : List RawExtension
deriving DecidableEq, Repr

/-- A recorded warning event (`Recorder.Eventf`). -/
structure KEvent where
  nsName : String
  etype : String
  reason : String
  className : String
deriving DecidableEq, Repr

/-- Store errors the client can return. -/
inductive StoreErr where
  | notFound
  | alreadyExists
  | conflict
  | other (msg : String)
deriving DecidableEq, Repr

/-- The observable cluster state, plus injectable failures that model the
client returning an error on a given key (network / RBAC / conflict etc.). -/
structure Cluster where
  objects : List (ObjKey × StoredObj)
  namespaces : List KNamespace
  classes : List NamespaceClass
  events : List KEvent
  nextRV : Nat
  failGet : List ObjKey
  failCreate : List ObjKey
  failUpdate : List ObjKey
  failDelete : List ObjKey
  failListNs : Bool
  failClassUpdate : Bool
  failStatusUpdate : Bool
deriving DecidableEq, Repr

def lookupAssoc (l : List (String × String)) (k : String) : Option String :=
  (l.find? (fun p => p.1 = k)).map (·.2)

def lookupObj (l : List (ObjKey × StoredObj)) (k : ObjKey) : Option StoredObj :=
  (l.find? (fun p => p.1 = k)).map (·.2)

def replaceObj (l : List (ObjKey × StoredObj)) (k : ObjKey) (v : StoredObj) :
    List (ObjKey × StoredObj) :=
  l.map (fun p => if p.1 = k then (k, v) else p)

def removeObj (l : List (ObjKey × StoredObj)) (k : ObjKey) :
    List (ObjKey × StoredObj) :=
  l.filter (fun p => ¬ p.1 = k)

/-- `r.Get` on a child object. -/
def clusterGetObj (c : Cluster) (k : ObjKey) : Except StoreErr StoredObj :=
  if k ∈ c.failGet then .error (.other "get failed")
  else
    match lookupObj c.objects k with
    | some o => .ok o
    | none => .error .notFound

/-- `r.Create`: fails if the identity already exists, else stores the payload
with a fresh resourceVersion. -/
def clusterCreate (c : Cluster) (o : ParsedObj) : Except StoreErr Cluster :=
  if keyOf o ∈ c.failCreate then .error (.other "create failed")
  else
    match lookupObj c.objects (keyOf o) with
    | some _ => .error .alreadyExists
    | none =>
        .ok { c with
                objects := (keyOf o, ⟨c.nextRV, o.payload⟩) :: c.objects,
                nextRV := c.nextRV + 1 }

/-- `r.Update`: optimistic concurrency — rejects a stale resourceVersion. -/
def clusterUpdate (c : Cluster) (o : ParsedObj) : Except StoreErr Cluster :=
  if keyOf o ∈ c.failUpdate then .error (.other "update failed")
  else
    match lookupObj c.objects (keyOf o) with
    | none => .error .notFound
    | some existing =>
        if existing.resourceVersion = o.resourceVersion then
          .ok { c with
                  objects := replaceObj c.objects (keyOf o) ⟨c.nextRV, o.payload⟩,
                  nextRV := c.nextRV + 1 }
        else .error .conflict

/-- `r.Delete` on a child object. -/
def clusterDelete (c : Cluster) (k : ObjKey) : Except StoreErr Cluster :=
  if k ∈ c.failDelete then .error (.other "delete failed")
  else
    match lookupObj c.objects k with
    | none => .error .notFound
    | some _ => .ok { c with objects := removeObj c.objects k }

def findNamespace (c : Cluster) (name : String) : Option KNamespace :=
  c.namespaces.find? (fun ns => ns.name = name)

def findClass (c : Cluster) (name : String) : Option NamespaceClass :=
  c.classes.find? (fun cls => cls.name = name)

/-- `r.List` filtered by the class-reference label. -/
def listNamespacesWithLabel (c : Cluster) (value : String) : List KNamespace :=
  c.namespaces.filter (fun ns => lookupAssoc ns.labels NamespaceClassNameKey = some value)

/-- `r.Update` on a NamespaceClass object (metadata / finalizers). -/
def updateClass (c : Cluster) (cls : NamespaceClass) : Except StoreErr Cluster :=
  if c.failClassUpdate then .error (.other "class update failed")
  else if (findClass c cls.name).isSome then
    .ok { c with classes := c.classes.map (fun x => if x.name = cls.name then cls else x) }
  else .error .notFound

/-- `r.Status().Update` on a NamespaceClass (persists the status). -/
def updateClassStatus (c : Cluster) (cls : NamespaceClass) : Except StoreErr Cluster :=
  if c.failStatusUpdate then .error (.other "status update failed")
  else if (findClass c cls.name).isSome then
    .ok { c with classes := c.classes.map (fun x => if x.name = cls.name then cls else x) }
  else .error .notFound

/-- `Recorder.Eventf`: fire-and-forget warning recording. -/
def recordEvent (c : Cluster) (nsName reason className : String) : Cluster :=
  { c with events := ⟨nsName, "Warning", reason, className⟩ :: c.events }

/-- `upsert` (lines 495-522): read the existing object by identity; if the
read succeeds, carry its resourceVersion onto the new payload and update;
on any read error fall through to a create.  Update/create errors are
returned, logged read errors are not. -/
def upsert (c : Cluster) (obj : ParsedObj) : Cluster × Option StoreErr :=
  match clusterGetObj c (keyOf obj) with
  | .ok existing =>
      match clusterUpdate c { obj with resourceVersion := existing.resourceVersion } with
      | .error e => (c, some e)
      | .ok c' => (c', none)
  | .error _ =>
      match clusterCreate c obj with
      | .error e => (c, some e)
      | .ok c' => (c', none)

/-- `toNameGVKMap` (lines 534-544): build a map from resource *name* to its
GVK, skipping templates that fail to parse; later entries overwrite. -/
def insertNameGVK (l : List (String × GVK)) (name : String) (gvk : GVK) :
    List (String × GVK) :=
  if (l.find? (fun p => p.1 = name)).isSome then
    l.map (fun p => if p.1 = name then (name, gvk) else p)
  else l ++ [(name, gvk)]

def toNameGVKMap (resources : List RawExtension) : List (String × GVK) :=
  resources.foldl
    (fun result raw =>
      match unmarshalJSON raw with
      | none => result
      | some obj => insertNameGVK result obj.name obj.gvk)
    []

def lookupGVK (l : List (String × GVK)) (name : String) : Option GVK :=
  (l.find? (fun p => p.1 = name)).map (·.2)

/-- `diffRemoved` (lines 524-532): every map entry of `old` whose *name* is
not a key of `current`. -/
def diffRemoved (old current : List (String × GVK)) : List (String × GVK) :=
  old.filter (fun p => (lookupGVK current p.1).isNone)

/-- The upsert loop of `reconcileNamespaceForClass` (lines 468-478): upsert
every parseable template into the namespace, logging and swallowing
per-template errors. -/
def upsertResources (c : Cluster) (nsName : String)
    (resources : List RawExtension) : Cluster :=
  resources.foldl
    (fun acc raw =>
      match unmarshalJSON raw with
      | none => acc
      | some obj => (upsert acc { obj with ns := nsName }).1)
    c

/-- The obsolete-deletion loop of `reconcileNamespaceForClass` (lines
480-492): delete each removed identity, swallowing per-object errors. -/
def deleteRemoved (c : Cluster) (nsName : String)
    (removed : List (String × GVK)) : Cluster :=
  removed.foldl
    (fun acc p =>
      match clusterDelete acc ⟨p.2, p.1, nsName⟩ with
      | .error _ => acc
      | .ok acc' => acc')
    c

/-- `reconcileNamespaceForClass` (lines 459-493): upsert every parseable
template into the namespace (errors logged and swallowed), then — only if
the namespace's `cleanup-obsolete` marker is `"true"` — delete each entry
of the removed map (errors logged and swallowed). -/
def reconcileNamespaceForClass (c : Cluster) (ns : KNamespace)
    (cls : NamespaceClass) (removed : List (String × GVK)) : Cluster :=
  let cleanup := lookupAssoc ns.annots NamespaceClassCleanupObsoleteKey = some "true"
  let c1 := upsertResources c ns.name cls.resources
  if cleanup then deleteRemoved c1 ns.name removed
  else c1

/-- `reconcileClassUpdates` (lines 344-365): diff `LastAppliedResources`
against the current spec, reconcile every referencing namespace, then
persist `LastAppliedResources := Spec.Resources` through a status update. -/
def reconcileClassUpdates (c : Cluster) (cls : NamespaceClass) :
    Cluster × Option StoreErr :=
  let currentMap := toNameGVKMap cls.resources
  let lastAppliedMap := toNameGVKMap cls.lastAppliedResources
  let removed := diffRemoved lastAppliedMap currentMap
  if c.failListNs then (c, some (.other "list failed"))
  else
    let c1 := (listNamespacesWithLabel c cls.name).foldl
      (fun acc ns => reconcileNamespaceForClass acc ns cls removed) c
    match updateClassStatus c1 { cls with lastAppliedResources := cls.resources } with
    | .error e => (c1, some e)
    | .ok c2 => (c2, none)

/-- The cleanup loop of `reconcileNamespaceClassDelete` (lines 389-405):
delete the object of every parseable spec template from the namespace,
logging and swallowing per-object errors. -/
def deleteResources (c : Cluster) (nsName : String)
    (resources : List RawExtension) : Cluster :=
  resources.foldl
    (fun acc raw =>
      match unmarshalJSON raw with
      | none => acc
      | some obj =>
          match clusterDelete acc ⟨obj.gvk, obj.name, nsName⟩ with
          | .error _ => acc
          | .ok acc' => acc')
    c

/-- `reconcileNamespaceClassDelete` (lines 367-415): list referencing
namespaces (list failure is fatal); re-read the class (not found: skip
cleanup, succeed); then per namespace either delete every parseable spec
template's object (`cleanup` marker `"true"`, delete errors logged and
swallowed) or record one orphaned-reference warning. -/
def reconcileNamespaceClassDelete (c : Cluster) (className : String) :
    Cluster × Option StoreErr :=
  if c.failListNs then (c, some (.other "list failed"))
  else
    let nsList := listNamespacesWithLabel c className
    match findClass c className with
    | none => (c, none)
    | some cls =>
        let c1 := nsList.foldl
          (fun acc ns =>
            if lookupAssoc ns.annots NamespaceClassCleanupKey = some "true" then
              deleteResources acc ns.name cls.resources
            else recordEvent acc ns.name "OrphanedNamespaceClass" className)
          c
        (c1, none)

/-- The create loop of `reconcileNamespaceCreate` (lines 438-454): create
every parseable template in the namespace, skipping per-template
failures. -/
def createResources (c : Cluster) (nsName : String)
    (resources : List RawExtension) : Cluster :=
  resources.foldl
    (fun acc raw =>
      match unmarshalJSON raw with
      | none => acc
      | some obj =>
          match clusterCreate acc { obj with ns := nsName } with
          | .error _ => acc
          | .ok acc' => acc')
    c

/-- `reconcileNamespaceCreate` (lines 417-457): namespace-triggered path.
Read the reference label (absent: no-op); resolve the class (missing:
warning event plus the error); then *create* every parseable template in
the namespace, skipping per-template failures. -/
def reconcileNamespaceCreate (c : Cluster) (ns : KNamespace) :
    Cluster × Option StoreErr :=
  match lookupAssoc ns.labels NamespaceClassNameKey with
  | none => (c, none)
  | some className =>
      match findClass c className with
      | none =>
          (recordEvent c ns.name "MissingNamespaceClass" className, some .notFound)
      | some cls => (createResources c ns.name cls.resources, none)

/-- `ensureFinalizer` (lines 296-302): add the finalizer token and persist
if it is not yet present. -/
def ensureFinalizer (c : Cluster) (cls : NamespaceClass) :
    (Cluster × NamespaceClass) × Option StoreErr :=
  if NamespaceClassFinalizerKey ∈ cls.finalizers then ((c, cls), none)
  else
    let cls' := { cls with finalizers := cls.finalizers ++ [NamespaceClassFinalizerKey] }
    match updateClass c cls' with
    | .error e => ((c, cls'), some e)
    | .ok c' => ((c', cls'), none)

/-- `finalizeClass` (lines 304-316): if the finalizer token is present, run
the deletion cleanup; only when it returns no error remove the token and
persist. -/
def finalizeClass (c : Cluster) (cls : NamespaceClass) :
    Cluster × Option StoreErr :=
  if NamespaceClassFinalizerKey ∈ cls.finalizers then
    match reconcileNamespaceClassDelete c cls.name with
    | (c1, some e) => (c1, some e)
    | (c1, none) =>
        let cls' := { cls with
          finalizers := cls.finalizers.filter (fun f => ¬ f = NamespaceClassFinalizerKey) }
        match updateClass c1 cls' with
        | .error e => (c1, some e)
        | .ok c2 => (c2, none)
  else (c, none)

/-- `handleMissingNamespaceClass` (lines 318-332): non-not-found errors
propagate; otherwise record an orphaned-reference warning for every
namespace whose reference label names the missing class. -/
def handleMissingNamespaceClass (c : Cluster) (className : String)
    (e : StoreErr) : Cluster × Option StoreErr :=
  if ¬ e = .notFound then (c, some e)
  else if c.failListNs then (c, some (.other "list failed"))
  else
    let c1 := (listNamespacesWithLabel c className).foldl
      (fun acc ns => recordEvent acc ns.name "OrphanedNamespaceClass" className) c
    (c1, none)

/-- `Reconcile` (lines 255-280): resolve the request as a namespace first;
else as a class (missing: orphan handling); a deleting class is finalized,
an active one gains the finalizer and has its updates reconciled. -/
def Reconcile (c : Cluster) (reqName : String) : Cluster × Option StoreErr :=
  match findNamespace c reqName with
  | some ns => reconcileNamespaceCreate c ns
  | none =>
      match findClass c reqName with
      | none => handleMissingNamespaceClass c reqName .notFound
      | some cls =>
          if cls.deletionTimestamp.isSome then finalizeClass c cls
          else
            match ensureFinalizer c cls with
            | (_, some e) => (c, some e)
            | ((c1, cls1), none) => reconcileClassUpdates c1 cls1

/-- Everything except objects, events and the resourceVersion counter. -/
def SameShape (c c' : Cluster) : Prop :=
  c'.namespaces = c.namespaces ∧ c'.classes = c.classes ∧
  c'.failGet = c.failGet ∧ c'.failCreate = c.failCreate ∧
  c'.failUpdate = c.failUpdate ∧ c'.failDelete = c.failDelete ∧
  c'.failListNs = c.failListNs ∧ c'.failClassUpdate = c.failClassUpdate ∧
  c'.failStatusUpdate = c.failStatusUpdate

/-- Number of stored objects carrying a given identity. -/
def countKey (l : List (ObjKey × StoredObj)) (k : ObjKey) : Nat :=
  (l.filter (fun p => p.1 = k)).length

/-- The store holds at most one object per identity. -/
def ObjectsWF (c : Cluster) : Prop := (c.objects.map Prod.fst).Nodup

/-- The template identities of a template list, as (name, gvk) pairs, in
order, parse failures skipped. -/
def specIdentities (l : List RawExtension) : List (String × GVK) :=
  l.filterMap (fun raw => (unmarshalJSON raw).map (fun o => (o.name, o.gvk)))

/-- Modelled from the spec: the Diff Engine contract of section 4.2, "returns
every identity present in previous but absent from current", with identity
equality exact on the whole (name, kind, apiVersion) tuple.  Used only to
compare the spec's wording against the implemented `diffRemoved`. -/
def specRemovedTuples (previous current : List RawExtension) :
    List (String × GVK) :=
  (specIdentities previous).filter (fun p => ¬ p ∈ specIdentities current)

/-! ### Basic lemmas about the object store -/

theorem lookupObj_nil (k : ObjKey) : lookupObj [] k = none := rfl

theorem lookupObj_cons_self (k : ObjKey) (v : StoredObj)
    (l : List (ObjKey × StoredObj)) : lookupObj ((k, v) :: l) k = some v := by
  simp [lookupObj, List.find?]

theorem lookupObj_cons_ne (k k' : ObjKey) (v : StoredObj)
    (l : List (ObjKey × StoredObj)) (h : ¬ k = k') :
    lookupObj ((k, v) :: l) k' = lookupObj l k' := by
  simp [lookupObj, List.find?, h]

theorem replaceObj_cons (k0 : ObjKey) (v0 : StoredObj)
    (l : List (ObjKey × StoredObj)) (k : ObjKey) (v : StoredObj) :
    replaceObj ((k0, v0) :: l) k v =
      (if k0 = k then (k, v) else (k0, v0)) :: replaceObj l k v := by
  simp only [replaceObj, List.map_cons]

theorem removeObj_cons_of_eq (k0 : ObjKey) (v0 : StoredObj)
    (l : List (ObjKey × StoredObj)) (k : ObjKey) (h : k0 = k) :
    removeObj ((k0, v0) :: l) k = removeObj l k := by
  simp [removeObj, List.filter_cons, h]

theorem removeObj_cons_of_ne (k0 : ObjKey) (v0 : StoredObj)
    (l : List (ObjKey × StoredObj)) (k : ObjKey) (h : ¬ k0 = k) :
    removeObj ((k0, v0) :: l) k = (k0, v0) :: removeObj l k := by
  simp [removeObj, List.filter_cons, h]

theorem lookupObj_replaceObj_self (l : List (ObjKey × StoredObj))
    (k : ObjKey) (v w : StoredObj) (h : lookupObj l k = some w) :
    lookupObj (replaceObj l k v) k = some v := by
  induction l with
  | nil => simp [lookupObj] at h
  | cons p l ih =>
      obtain ⟨k0, v0⟩ := p
      rw [replaceObj_cons]
      by_cases hk : k0 = k
      · rw [if_pos hk, lookupObj_cons_self]
      · rw [if_neg hk, lookupObj_cons_ne _ _ _ _ hk]
        rw [lookupObj_cons_ne _ _ _ _ hk] at h
        exact ih h

theorem lookupObj_replaceObj_ne (l : List (ObjKey × StoredObj))
    (k k' : ObjKey) (v : StoredObj) (h : ¬ k' = k) :
    lookupObj (replaceObj l k v) k' = lookupObj l k' := by
  induction l with
  | nil => rfl
  | cons p l ih =>
      obtain ⟨k0, v0⟩ := p
      rw [replaceObj_cons]
      by_cases hk : k0 = k
      · rw [if_pos hk, lookupObj_cons_ne _ _ _ _ (fun e => h e.symm),
          lookupObj_cons_ne _ _ _ _ (fun e => h (hk ▸ e).symm)]
        exact ih
      · rw [if_neg hk]
        by_cases hp : k0 = k'
        · rw [hp, lookupObj_cons_self, lookupObj_cons_self]
        · rw [lookupObj_cons_ne _ _ _ _ hp, lookupObj_cons_ne _ _ _ _ hp]
          exact ih

theorem lookupObj_removeObj_self (l : List (ObjKey × StoredObj)) (k : ObjKey) :
    lookupObj (removeObj l k) k = none := by
  induction l with
  | nil => rfl
  | cons p l ih =>
      obtain ⟨k0, v0⟩ := p
      by_cases hk : k0 = k
      · rw [removeObj_cons_of_eq _ _ _ _ hk]; exact ih
      · rw [removeObj_cons_of_ne _ _ _ _ hk, lookupObj_cons_ne _ _ _ _ hk]
        exact ih

theorem lookupObj_removeObj_ne (l : List (ObjKey × StoredObj))
    (k k' : ObjKey) (h : ¬ k' = k) :
    lookupObj (removeObj l k) k' = lookupObj l k' := by
  induction l with
  | nil => rfl
  | cons p l ih =>
      obtain ⟨k0, v0⟩ := p
      by_cases hk : k0 = k
      · rw [removeObj_cons_of_eq _ _ _ _ hk,
          lookupObj_cons_ne _ _ _ _ (fun e => h (hk ▸ e).symm)]
        exact ih
      · rw [removeObj_cons_of_ne _ _ _ _ hk]
        by_cases hp : k0 = k'
        · rw [hp, lookupObj_cons_self, lookupObj_cons_self]
        · rw [lookupObj_cons_ne _ _ _ _ hp, lookupObj_cons_ne _ _ _ _ hp]
          exact ih

/-! ### Shape preservation and operation characterizations -/

theorem sameShape_refl (c : Cluster) : SameShape c c :=
  ⟨rfl, rfl, rfl, rfl, rfl, rfl, rfl, rfl, rfl⟩

theorem sameShape_trans {a b c : Cluster}
    (h1 : SameShape a b) (h2 : SameShape b c) : SameShape a c := by
  obtain ⟨e1, e2, e3, e4, e5, e6, e7, e8, e9⟩ := h1
  obtain ⟨f1, f2, f3, f4, f5, f6, f7, f8, f9⟩ := h2
  exact ⟨f1.trans e1, f2.trans e2, f3.trans e3, f4.trans e4, f5.trans e5,
    f6.trans e6, f7.trans e7, f8.trans e8, f9.trans e9⟩

theorem clusterCreate_ok_eq {c : Cluster} {o : ParsedObj} {c' : Cluster}
    (h : clusterCreate c o = .ok c') :
    c' = { c with objects := (keyOf o, ⟨c.nextRV, o.payload⟩) :: c.objects,
                  nextRV := c.nextRV + 1 } ∧
    lookupObj c.objects (keyOf o) = none := by
  unfold clusterCreate at h
  split at h
  · exact absurd h (by simp)
  · split at h
    next w hx => exact absurd h (by simp)
    next hx => exact ⟨(Except.ok.inj h).symm, hx⟩

theorem clusterUpdate_ok_eq {c : Cluster} {o : ParsedObj} {c' : Cluster}
    (h : clusterUpdate c o = .ok c') :
    c' = { c with objects := replaceObj c.objects (keyOf o) ⟨c.nextRV, o.payload⟩,
                  nextRV := c.nextRV + 1 } ∧
    ∃ ex, lookupObj c.objects (keyOf o) = some ex ∧
      ex.resourceVersion = o.resourceVersion := by
  unfold clusterUpdate at h
  split at h
  · exact absurd h (by simp)
  · split at h
    next hx => exact absurd h (by simp)
    next ex hx =>
      split at h
      next hv => exact ⟨(Except.ok.inj h).symm, ex, hx, hv⟩
      next hv => exact absurd h (by simp)

theorem clusterDelete_ok_eq {c : Cluster} {k : ObjKey} {c' : Cluster}
    (h : clusterDelete c k = .ok c') :
    c' = { c with objects := removeObj c.objects k } ∧
    ∃ ex, lookupObj c.objects k = some ex := by
  unfold clusterDelete at h
  split at h
  · exact absurd h (by simp)
  · split at h
    next hx => exact absurd h (by simp)
    next ex hx => exact ⟨(Except.ok.inj h).symm, ex, hx⟩

theorem clusterCreate_eq_ok {c : Cluster} {o : ParsedObj}
    (hf : ¬ keyOf o ∈ c.failCreate)
    (habs : lookupObj c.objects (keyOf o) = none) :
    clusterCreate c o =
      .ok { c with objects := (keyOf o, ⟨c.nextRV, o.payload⟩) :: c.objects,
                   nextRV := c.nextRV + 1 } := by
  unfold clusterCreate
  rw [if_neg hf, habs]

theorem clusterDelete_eq_ok {c : Cluster} {k : ObjKey} {ex : StoredObj}
    (hf : ¬ k ∈ c.failDelete) (hx : lookupObj c.objects k = some ex) :
    clusterDelete c k = .ok { c with objects := removeObj c.objects k } := by
  unfold clusterDelete
  rw [if_neg hf, hx]

theorem clusterDelete_eq_notFound {c : Cluster} {k : ObjKey}
    (hf : ¬ k ∈ c.failDelete) (hx : lookupObj c.objects k = none) :
    clusterDelete c k = .error .notFound := by
  unfold clusterDelete
  rw [if_neg hf, hx]

/-! ### Upsert characterizations -/

theorem upsert_update_eq {c : Cluster} {obj : ParsedObj} {ex : StoredObj}
    (hg : ¬ keyOf obj ∈ c.failGet) (hu : ¬ keyOf obj ∈ c.failUpdate)
    (hex : lookupObj c.objects (keyOf obj) = some ex) :
    upsert c obj =
      ({ c with objects := replaceObj c.objects (keyOf obj) ⟨c.nextRV, obj.payload⟩,
                nextRV := c.nextRV + 1 }, none) := by
  have hget : clusterGetObj c (keyOf obj) = .ok ex := by
    unfold clusterGetObj; rw [if_neg hg, hex]
  have hkey : keyOf { obj with resourceVersion := ex.resourceVersion } = keyOf obj := rfl
  have hupd : clusterUpdate c { obj with resourceVersion := ex.resourceVersion } =
      .ok { c with objects := replaceObj c.objects (keyOf obj) ⟨c.nextRV, obj.payload⟩,
                   nextRV := c.nextRV + 1 } := by
    unfold clusterUpdate
    rw [hkey, if_neg hu, hex]
    simp
  simp only [upsert, hget, hupd]

theorem upsert_create_eq {c : Cluster} {obj : ParsedObj}
    (hg : ¬ keyOf obj ∈ c.failGet) (hc : ¬ keyOf obj ∈ c.failCreate)
    (habs : lookupObj c.objects (keyOf obj) = none) :
    upsert c obj =
      ({ c with objects := (keyOf obj, ⟨c.nextRV, obj.payload⟩) :: c.objects,
                nextRV := c.nextRV + 1 }, none) := by
  have hget : clusterGetObj c (keyOf obj) = .error .notFound := by
    unfold clusterGetObj; rw [if_neg hg, habs]
  unfold upsert
  rw [hget, clusterCreate_eq_ok hc habs]

theorem upsert_get_error {c : Cluster} {obj : ParsedObj} {e : StoreErr}
    (hget : clusterGetObj c (keyOf obj) = .error e) :
    upsert c obj =
      match clusterCreate c obj with
      | .error ce => (c, some ce)
      | .ok c' => (c', none) := by
  unfold upsert
  rw [hget]

theorem upsert_of_get_ok {c : Cluster} {obj : ParsedObj} {ex : StoredObj}
    (hget : clusterGetObj c (keyOf obj) = .ok ex) :
    upsert c obj =
      match clusterUpdate c { obj with resourceVersion := ex.resourceVersion } with
      | .error e => (c, some e)
      | .ok c' => (c', none) := by
  unfold upsert
  rw [hget]

theorem upsert_fst_lookup_ne {c : Cluster} {obj : ParsedObj} {k : ObjKey}
    (h : ¬ k = keyOf obj) :
    lookupObj (upsert c obj).1.objects k = lookupObj c.objects k := by
  cases hget : clusterGetObj c (keyOf obj) with
  | ok ex =>
      rw [upsert_of_get_ok hget]
      cases hupd : clusterUpdate c { obj with resourceVersion := ex.resourceVersion } with
      | error e => rfl
      | ok c' =>
          obtain ⟨hc', -⟩ := clusterUpdate_ok_eq hupd
          subst hc'
          exact lookupObj_replaceObj_ne _ _ _ _ h
  | error e =>
      rw [upsert_get_error hget]
      cases hcr : clusterCreate c obj with
      | error ce => rfl
      | ok c' =>
          obtain ⟨hc', -⟩ := clusterCreate_ok_eq hcr
          subst hc'
          exact lookupObj_cons_ne _ _ _ _ (fun e' => h e'.symm)

theorem upsert_fst_shape (c : Cluster) (obj : ParsedObj) :
    SameShape c (upsert c obj).1 ∧ (upsert c obj).1.events = c.events := by
  cases hget : clusterGetObj c (keyOf obj) with
  | ok ex =>
      rw [upsert_of_get_ok hget]
      cases hupd : clusterUpdate c { obj with resourceVersion := ex.resourceVersion } with
      | error e => exact ⟨sameShape_refl c, rfl⟩
      | ok c' =>
          obtain ⟨hc', -⟩ := clusterUpdate_ok_eq hupd
          subst hc'
          exact ⟨⟨rfl, rfl, rfl, rfl, rfl, rfl, rfl, rfl, rfl⟩, rfl⟩
  | error e =>
      rw [upsert_get_error hget]
      cases hcr : clusterCreate c obj with
      | error ce => exact ⟨sameShape_refl c, rfl⟩
      | ok c' =>
          obtain ⟨hc', -⟩ := clusterCreate_ok_eq hcr
          subst hc'
          exact ⟨⟨rfl, rfl, rfl, rfl, rfl, rfl, rfl, rfl, rfl⟩, rfl⟩

/-! ### At-most-one-object-per-identity bookkeeping -/

theorem lookupObj_eq_none_iff (l : List (ObjKey × StoredObj)) (k : ObjKey) :
    lookupObj l k = none ↔ ∀ p ∈ l, ¬ p.1 = k := by
  simp [lookupObj, List.find?_eq_none]

theorem filter_key_eq_nil_of_not_mem {l : List (ObjKey × StoredObj)} {k : ObjKey}
    (h : ¬ k ∈ l.map Prod.fst) : l.filter (fun p => p.1 = k) = [] := by
  rw [List.filter_eq_nil_iff]
  intro p hp
  simp only [decide_eq_true_eq]
  intro e
  exact h (List.mem_map.mpr ⟨p, hp, e⟩)

theorem countKey_eq_one_of_lookup {l : List (ObjKey × StoredObj)} {k : ObjKey}
    {v : StoredObj} (hw : (l.map Prod.fst).Nodup) (h : lookupObj l k = some v) :
    countKey l k = 1 := by
  induction l with
  | nil => simp [lookupObj] at h
  | cons p rest ih =>
      obtain ⟨k0, v0⟩ := p
      simp only [List.map_cons, List.nodup_cons] at hw
      by_cases hk : k0 = k
      · subst hk
        have : rest.filter (fun p => p.1 = k0) = [] :=
          filter_key_eq_nil_of_not_mem hw.1
        simp [countKey, List.filter_cons, this]
      · rw [lookupObj_cons_ne _ _ _ _ hk] at h
        have := ih hw.2 h
        simpa [countKey, List.filter_cons, hk] using this

theorem replaceObj_map_fst (l : List (ObjKey × StoredObj)) (k : ObjKey)
    (v : StoredObj) : (replaceObj l k v).map Prod.fst = l.map Prod.fst := by
  induction l with
  | nil => rfl
  | cons p rest ih =>
      obtain ⟨k0, v0⟩ := p
      rw [replaceObj_cons]
      by_cases hk : k0 = k
      · subst hk; simp [ih]
      · simp [hk, ih]

theorem removeObj_keys_nodup {l : List (ObjKey × StoredObj)} {k : ObjKey}
    (hw : (l.map Prod.fst).Nodup) : ((removeObj l k).map Prod.fst).Nodup := by
  have hsub : List.Sublist (removeObj l k) l := List.filter_sublist l
  exact (hsub.map Prod.fst).nodup hw

theorem upsert_WF {c : Cluster} {obj : ParsedObj} (hw : ObjectsWF c) :
    ObjectsWF (upsert c obj).1 := by
  cases hget : clusterGetObj c (keyOf obj) with
  | ok ex =>
      rw [upsert_of_get_ok hget]
      cases hupd : clusterUpdate c { obj with resourceVersion := ex.resourceVersion } with
      | error e => exact hw
      | ok c' =>
          obtain ⟨hc', -⟩ := clusterUpdate_ok_eq hupd
          subst hc'
          show ((replaceObj c.objects _ _).map Prod.fst).Nodup
          rw [replaceObj_map_fst]
          exact hw
  | error e =>
      rw [upsert_get_error hget]
      cases hcr : clusterCreate c obj with
      | error ce => exact hw
      | ok c' =>
          obtain ⟨hc', habs⟩ := clusterCreate_ok_eq hcr
          subst hc'
          show (((keyOf obj, _) :: c.objects).map Prod.fst).Nodup
          rw [List.map_cons, List.nodup_cons]
          refine ⟨?_, hw⟩
          intro hmem
          rw [lookupObj_eq_none_iff] at habs
          obtain ⟨p, hp, he⟩ := List.mem_map.mp hmem
          exact habs p hp he

/-! ### Loop (fold) lemmas -/

theorem createResources_nil (c : Cluster) (n : String) :
    createResources c n [] = c := rfl

theorem createResources_cons (c : Cluster) (n : String) (raw : RawExtension)
    (rest : List RawExtension) :
    createResources c n (raw :: rest) =
      createResources
        (match unmarshalJSON raw with
         | none => c
         | some obj =>
             match clusterCreate c { obj with ns := n } with
             | .error _ => c
             | .ok c' => c') n rest := rfl

theorem upsertResources_nil (c : Cluster) (n : String) :
    upsertResources c n [] = c := rfl

theorem upsertResources_cons (c : Cluster) (n : String) (raw : RawExtension)
    (rest : List RawExtension) :
    upsertResources c n (raw :: rest) =
      upsertResources
        (match unmarshalJSON raw with
         | none => c
         | some obj => (upsert c { obj with ns := n }).1) n rest := rfl

theorem deleteResources_nil (c : Cluster) (n : String) :
    deleteResources c n [] = c := rfl

theorem deleteResources_cons (c : Cluster) (n : String) (raw : RawExtension)
    (rest : List RawExtension) :
    deleteResources c n (raw :: rest) =
      deleteResources
        (match unmarshalJSON raw with
         | none => c
         | some obj =>
             match clusterDelete c ⟨obj.gvk, obj.name, n⟩ with
             | .error _ => c
             | .ok c' => c') n rest := rfl

theorem deleteRemoved_nil (c : Cluster) (n : String) :
    deleteRemoved c n [] = c := rfl

theorem deleteRemoved_cons (c : Cluster) (n : String) (p : String × GVK)
    (rest : List (String × GVK)) :
    deleteRemoved c n (p :: rest) =
      deleteRemoved
        (match clusterDelete c ⟨p.2, p.1, n⟩ with
         | .error _ => c
         | .ok c' => c') n rest := rfl

theorem createResources_cons_none {raw : RawExtension}
    (hp : unmarshalJSON raw = none) (c : Cluster) (n : String)
    (rest : List RawExtension) :
    createResources c n (raw :: rest) = createResources c n rest := by
  rw [createResources_cons, hp]

theorem createResources_cons_some {raw : RawExtension} {obj : ParsedObj}
    (hp : unmarshalJSON raw = some obj) (c : Cluster) (n : String)
    (rest : List RawExtension) :
    createResources c n (raw :: rest) =
      createResources
        (match clusterCreate c { obj with ns := n } with
         | .error _ => c
         | .ok c' => c') n rest := by
  rw [createResources_cons, hp]

theorem upsertResources_cons_none {raw : RawExtension}
    (hp : unmarshalJSON raw = none) (c : Cluster) (n : String)
    (rest : List RawExtension) :
    upsertResources c n (raw :: rest) = upsertResources c n rest := by
  rw [upsertResources_cons, hp]

theorem upsertResources_cons_some {raw : RawExtension} {obj : ParsedObj}
    (hp : unmarshalJSON raw = some obj) (c : Cluster) (n : String)
    (rest : List RawExtension) :
    upsertResources c n (raw :: rest) =
      upsertResources (upsert c { obj with ns := n }).1 n rest := by
  rw [upsertResources_cons, hp]

theorem deleteResources_cons_none {raw : RawExtension}
    (hp : unmarshalJSON raw = none) (c : Cluster) (n : String)
    (rest : List RawExtension) :
    deleteResources c n (raw :: rest) = deleteResources c n rest := by
  rw [deleteResources_cons, hp]

theorem deleteResources_cons_some {raw : RawExtension} {obj : ParsedObj}
    (hp : unmarshalJSON raw = some obj) (c : Cluster) (n : String)
    (rest : List RawExtension) :
    deleteResources c n (raw :: rest) =
      deleteResources
        (match clusterDelete c ⟨obj.gvk, obj.name, n⟩ with
         | .error _ => c
         | .ok c' => c') n rest := by
  rw [deleteResources_cons, hp]

/-- The namespace-triggered create loop never loses or changes an existing
object: every identity stored before keeps its exact stored value. -/
theorem createResources_preserves_lookup (l : List RawExtension) (n : String) :
    ∀ {c : Cluster} {k : ObjKey} {o : StoredObj},
      lookupObj c.objects k = some o →
      lookupObj (createResources c n l).objects k = some o := by
  induction l with
  | nil => intro c k o h; exact h
  | cons raw rest ih =>
      intro c k o h
      cases hp : unmarshalJSON raw with
      | none => rw [createResources_cons_none hp]; exact ih h
      | some obj =>
          rw [createResources_cons_some hp]
          cases hcr : clusterCreate c { obj with ns := n } with
          | error e => exact ih h
          | ok c' =>
              obtain ⟨hc', habs⟩ := clusterCreate_ok_eq hcr
              subst hc'
              refine ih ?_
              show lookupObj ((keyOf { obj with ns := n }, _) :: c.objects) k = some o
              rw [lookupObj_cons_ne]
              · exact h
              · intro e
                rw [e, h] at habs
                exact Option.noConfusion habs

theorem createResources_shape (l : List RawExtension) (n : String) :
    ∀ c : Cluster, SameShape c (createResources c n l) ∧
      (createResources c n l).events = c.events := by
  induction l with
  | nil => intro c; exact ⟨sameShape_refl c, rfl⟩
  | cons raw rest ih =>
      intro c
      cases hp : unmarshalJSON raw with
      | none => rw [createResources_cons_none hp]; exact ih c
      | some obj =>
          rw [createResources_cons_some hp]
          cases hcr : clusterCreate c { obj with ns := n } with
          | error e => exact ih c
          | ok c' =>
              obtain ⟨hc', -⟩ := clusterCreate_ok_eq hcr
              subst hc'
              obtain ⟨hs, he⟩ := ih _
              exact ⟨sameShape_trans ⟨rfl, rfl, rfl, rfl, rfl, rfl, rfl, rfl, rfl⟩ hs,
                he.trans rfl⟩

theorem deleteResources_shape (l : List RawExtension) (n : String) :
    ∀ c : Cluster, SameShape c (deleteResources c n l) ∧
      (deleteResources c n l).events = c.events := by
  induction l with
  | nil => intro c; exact ⟨sameShape_refl c, rfl⟩
  | cons raw rest ih =>
      intro c
      cases hp : unmarshalJSON raw with
      | none => rw [deleteResources_cons_none hp]; exact ih c
      | some obj =>
          rw [deleteResources_cons_some hp]
          cases hd : clusterDelete c ⟨obj.gvk, obj.name, n⟩ with
          | error e => exact ih c
          | ok c' =>
              obtain ⟨hc', -⟩ := clusterDelete_ok_eq hd
              subst hc'
              obtain ⟨hs, he⟩ := ih _
              exact ⟨sameShape_trans ⟨rfl, rfl, rfl, rfl, rfl, rfl, rfl, rfl, rfl⟩ hs,
                he.trans rfl⟩

/-- Once an identity is absent, the deletion loop keeps it absent. -/
theorem deleteResources_none_mono (l : List RawExtension) (n : String) :
    ∀ {c : Cluster} {k : ObjKey},
      lookupObj c.objects k = none →
      lookupObj (deleteResources c n l).objects k = none := by
  induction l with
  | nil => intro c k h; exact h
  | cons raw rest ih =>
      intro c k h
      cases hp : unmarshalJSON raw with
      | none => rw [deleteResources_cons_none hp]; exact ih h
      | some obj =>
          rw [deleteResources_cons_some hp]
          cases hd : clusterDelete c ⟨obj.gvk, obj.name, n⟩ with
          | error e => exact ih h
          | ok c' =>
              obtain ⟨hc', -⟩ := clusterDelete_ok_eq hd
              subst hc'
              refine ih ?_
              show lookupObj (removeObj c.objects _) k = none
              by_cases hk : k = (⟨obj.gvk, obj.name, n⟩ : ObjKey)
              · rw [hk]; exact lookupObj_removeObj_self _ _
              · rw [lookupObj_removeObj_ne _ _ _ hk]; exact h

/-- With no injected delete failures, the deletion loop ends with every
parseable template's identity absent from the namespace. -/
theorem deleteResources_deletes (l : List RawExtension) (n : String) :
    ∀ {c : Cluster}, c.failDelete = [] →
      ∀ raw ∈ l, ∀ t, unmarshalJSON raw = some t →
        lookupObj (deleteResources c n l).objects ⟨t.gvk, t.name, n⟩ = none := by
  induction l with
  | nil => intro c _ raw hraw; exact absurd hraw (List.not_mem_nil raw)
  | cons raw0 rest ih =>
      intro c hfd raw hraw t hparse
      rcases List.mem_cons.mp hraw with he | hmem
      · -- the head template: its identity is gone after the head step,
        -- and stays gone through the rest of the loop
        subst he
        rw [deleteResources_cons_some hparse]
        cases hd : clusterDelete c ⟨t.gvk, t.name, n⟩ with
        | error e =>
            -- with no injected failures the only delete error is
            -- not-found, i.e. the identity was already absent
            unfold clusterDelete at hd
            rw [hfd] at hd
            rw [if_neg (List.not_mem_nil _)] at hd
            cases hx : lookupObj c.objects ⟨t.gvk, t.name, n⟩ with
            | none => exact deleteResources_none_mono rest n hx
            | some ex => rw [hx] at hd; exact absurd hd (by simp)
        | ok c' =>
            obtain ⟨hc', -⟩ := clusterDelete_ok_eq hd
            subst hc'
            exact deleteResources_none_mono rest n (lookupObj_removeObj_self _ _)
      · cases hp : unmarshalJSON raw0 with
        | none => rw [deleteResources_cons_none hp]; exact ih hfd raw hmem t hparse
        | some obj =>
            rw [deleteResources_cons_some hp]
            cases hd : clusterDelete c ⟨obj.gvk, obj.name, n⟩ with
            | error e => exact ih hfd raw hmem t hparse
            | ok c' =>
                obtain ⟨hc', -⟩ := clusterDelete_ok_eq hd
                subst hc'
                exact ih (by exact hfd) raw hmem t hparse

/-- The deletion loop touches only objects inside its target namespace. -/
theorem deleteResources_frame_ns (l : List RawExtension) (n : String) :
    ∀ {c : Cluster} {k : ObjKey}, ¬ k.ns = n →
      lookupObj (deleteResources c n l).objects k = lookupObj c.objects k := by
  induction l with
  | nil => intro c k _; rfl
  | cons raw rest ih =>
      intro c k hk
      cases hp : unmarshalJSON raw with
      | none => rw [deleteResources_cons_none hp]; exact ih hk
      | some obj =>
          rw [deleteResources_cons_some hp]
          cases hd : clusterDelete c ⟨obj.gvk, obj.name, n⟩ with
          | error e => exact ih hk
          | ok c' =>
              obtain ⟨hc', -⟩ := clusterDelete_ok_eq hd
              subst hc'
              rw [ih hk]
              show lookupObj (removeObj c.objects _) k = _
              rw [lookupObj_removeObj_ne _ _ _ (fun e => hk (by rw [e]))]

/-! ### Class store lemmas -/

theorem findClass_some_name {c : Cluster} {n : String} {cls : NamespaceClass}
    (h : findClass c n = some cls) : cls.name = n := by
  have := List.find?_some h
  exact of_decide_eq_true this

theorem replaceClass_find {L : List NamespaceClass} {n : String}
    {cls : NamespaceClass} (hn : cls.name = n)
    (hs : (L.find? (fun x => x.name = n)).isSome) :
    (L.map (fun x => if x.name = n then cls else x)).find?
      (fun x => x.name = n) = some cls := by
  induction L with
  | nil => simp at hs
  | cons x L ih =>
      by_cases hx : x.name = n
      · simp [List.find?, hx, hn]
      · simp only [List.map_cons, if_neg hx]
        rw [List.find?_cons_of_neg _ (by simp [hx])]
        apply ih
        rwa [List.find?_cons_of_neg _ (by simp [hx])] at hs

theorem updateClass_ok_parts {c : Cluster} {cls : NamespaceClass} {c' : Cluster}
    (h : updateClass c cls = .ok c') :
    c' = { c with classes :=
            c.classes.map (fun x => if x.name = cls.name then cls else x) } ∧
    (findClass c cls.name).isSome := by
  unfold updateClass at h
  split at h
  · exact absurd h (by simp)
  · split at h
    · exact ⟨(Except.ok.inj h).symm, by assumption⟩
    · exact absurd h (by simp)

theorem updateClassStatus_ok_parts {c : Cluster} {cls : NamespaceClass}
    {c' : Cluster} (h : updateClassStatus c cls = .ok c') :
    c' = { c with classes :=
            c.classes.map (fun x => if x.name = cls.name then cls else x) } ∧
    (findClass c cls.name).isSome := by
  unfold updateClassStatus at h
  split at h
  · exact absurd h (by simp)
  · split at h
    · exact ⟨(Except.ok.inj h).symm, by assumption⟩
    · exact absurd h (by simp)

theorem findClass_after_updateClass {c : Cluster} {cls : NamespaceClass}
    {c' : Cluster} (h : updateClass c cls = .ok c') :
    findClass c' cls.name = some cls := by
  obtain ⟨hc', hs⟩ := updateClass_ok_parts h
  subst hc'
  exact replaceClass_find rfl hs

theorem findClass_after_updateClassStatus {c : Cluster} {cls : NamespaceClass}
    {c' : Cluster} (h : updateClassStatus c cls = .ok c') :
    findClass c' cls.name = some cls := by
  obtain ⟨hc', hs⟩ := updateClassStatus_ok_parts h
  subst hc'
  exact replaceClass_find rfl hs

theorem updateClassStatus_eq_ok {c : Cluster} {cls : NamespaceClass}
    (hf : c.failStatusUpdate = false) (hs : (findClass c cls.name).isSome) :
    updateClassStatus c cls =
      .ok { c with classes :=
              c.classes.map (fun x => if x.name = cls.name then cls else x) } := by
  unfold updateClassStatus
  rw [hf, if_neg (by simp), if_pos hs]

/-! ### More upsert lemmas -/

theorem clusterUpdate_carried_ok {c : Cluster} {obj : ParsedObj} {ex : StoredObj}
    (hu : ¬ keyOf obj ∈ c.failUpdate)
    (hex : lookupObj c.objects (keyOf obj) = some ex) :
    clusterUpdate c { obj with resourceVersion := ex.resourceVersion } =
      .ok { c with objects := replaceObj c.objects (keyOf obj) ⟨c.nextRV, obj.payload⟩,
                   nextRV := c.nextRV + 1 } := by
  have hkey : keyOf { obj with resourceVersion := ex.resourceVersion } = keyOf obj := rfl
  unfold clusterUpdate
  rw [hkey, if_neg hu, hex]
  simp

/-- Under no injected failures at its identity, `upsert` succeeds and leaves
the template's latest payload stored at its identity. -/
theorem upsert_fst_lookup_self {c : Cluster} {obj : ParsedObj}
    (hg : ¬ keyOf obj ∈ c.failGet) (hc : ¬ keyOf obj ∈ c.failCreate)
    (hu : ¬ keyOf obj ∈ c.failUpdate) :
    lookupObj (upsert c obj).1.objects (keyOf obj) = some ⟨c.nextRV, obj.payload⟩ ∧
    (upsert c obj).2 = none ∧
    (upsert c obj).1.nextRV = c.nextRV + 1 := by
  cases hx : lookupObj c.objects (keyOf obj) with
  | none =>
      rw [upsert_create_eq hg hc hx]
      exact ⟨lookupObj_cons_self _ _ _, rfl, rfl⟩
  | some ex =>
      rw [upsert_update_eq hg hu hx]
      exact ⟨lookupObj_replaceObj_self _ _ _ _ hx, rfl, rfl⟩

/-! ### Diff engine lemmas -/

theorem lookupGVK_cons_self (n : String) (g0 : GVK) (rest : List (String × GVK)) :
    lookupGVK ((n, g0) :: rest) n = some g0 := by
  simp [lookupGVK, List.find?]

theorem lookupGVK_cons_ne {n0 n : String} (g0 : GVK)
    (rest : List (String × GVK)) (h : ¬ n0 = n) :
    lookupGVK ((n0, g0) :: rest) n = lookupGVK rest n := by
  simp [lookupGVK, List.find?, h]

theorem insertNameGVK_map_fst_of_found {l : List (String × GVK)} {n : String}
    (g : GVK) (h : (l.find? (fun p => p.1 = n)).isSome) :
    (insertNameGVK l n g).map Prod.fst = l.map Prod.fst := by
  unfold insertNameGVK
  rw [if_pos h, List.map_map]
  apply List.map_congr_left
  intro p hp
  by_cases hpn : p.1 = n
  · simp [hpn]
  · simp [hpn]

theorem insertNameGVK_nodup {l : List (String × GVK)} {n : String} {g : GVK}
    (h : (l.map Prod.fst).Nodup) :
    ((insertNameGVK l n g).map Prod.fst).Nodup := by
  by_cases hf : (l.find? (fun p => p.1 = n)).isSome
  · rw [insertNameGVK_map_fst_of_found g hf]; exact h
  · unfold insertNameGVK
    rw [if_neg hf]
    rw [List.map_append, List.nodup_append]
    refine ⟨h, by simp, ?_⟩
    intro a ha hb
    simp only [List.map_cons, List.map_nil, List.mem_singleton] at hb
    subst hb
    rw [Option.not_isSome_iff_eq_none, List.find?_eq_none] at hf
    obtain ⟨p, hp, he⟩ := List.mem_map.mp ha
    exact absurd (by simp [he]) (hf p hp)

theorem toNameGVKMap_nodup (rs : List RawExtension) :
    ((toNameGVKMap rs).map Prod.fst).Nodup := by
  have key : ∀ (rs : List RawExtension) (acc : List (String × GVK)),
      (acc.map Prod.fst).Nodup →
      ((rs.foldl
        (fun result raw =>
          match unmarshalJSON raw with
          | none => result
          | some obj => insertNameGVK result obj.name obj.gvk) acc).map Prod.fst).Nodup := by
    intro rs
    induction rs with
    | nil => intro acc h; exact h
    | cons raw rest ih =>
        intro acc h
        rw [List.foldl_cons]
        cases hp : unmarshalJSON raw with
        | none => exact ih acc h
        | some obj => exact ih _ (insertNameGVK_nodup h)
  exact key rs [] (by simp)

theorem mem_iff_lookupGVK {l : List (String × GVK)}
    (h : (l.map Prod.fst).Nodup) (n : String) (g : GVK) :
    (n, g) ∈ l ↔ lookupGVK l n = some g := by
  induction l with
  | nil => simp [lookupGVK]
  | cons p rest ih =>
      obtain ⟨n0, g0⟩ := p
      simp only [List.map_cons, List.nodup_cons] at h
      by_cases hn : n0 = n
      · subst hn
        rw [lookupGVK_cons_self]
        constructor
        · intro hm
          rcases List.mem_cons.mp hm with he | hm
          · injection he with h1 h2
            rw [h2]
          · exact absurd (List.mem_map.mpr ⟨(n0, g), hm, rfl⟩) h.1
        · intro hl
          injection hl with hg
          rw [← hg]
          exact List.mem_cons_self _ _
      · rw [lookupGVK_cons_ne _ _ hn]
        constructor
        · intro hm
          rcases List.mem_cons.mp hm with he | hm
          · injection he with h1 h2
            exact absurd h1.symm hn
          · exact (ih h.2).mp hm
        · intro hl
          exact List.mem_cons_of_mem _ ((ih h.2).mpr hl)

theorem mem_diffRemoved_iff (old current : List (String × GVK))
    (p : String × GVK) :
    p ∈ diffRemoved old current ↔ p ∈ old ∧ lookupGVK current p.1 = none := by
  unfold diffRemoved
  rw [List.mem_filter]
  simp [Option.isNone_iff_eq_none]

/-! ### Reconcile-level equations -/

theorem reconcileNamespaceForClass_cleanup_true {ns : KNamespace}
    (h : lookupAssoc ns.annots NamespaceClassCleanupObsoleteKey = some "true")
    (c : Cluster) (cls : NamespaceClass) (removed : List (String × GVK)) :
    reconcileNamespaceForClass c ns cls removed =
      deleteRemoved (upsertResources c ns.name cls.resources) ns.name removed := by
  simp [reconcileNamespaceForClass, h]

theorem reconcileNamespaceForClass_cleanup_false {ns : KNamespace}
    (h : ¬ lookupAssoc ns.annots NamespaceClassCleanupObsoleteKey = some "true")
    (c : Cluster) (cls : NamespaceClass) (removed : List (String × GVK)) :
    reconcileNamespaceForClass c ns cls removed =
      upsertResources c ns.name cls.resources := by
  simp [reconcileNamespaceForClass, h]

theorem reconcileClassUpdates_list_fail {c : Cluster} (cls : NamespaceClass)
    (hl : c.failListNs = true) :
    reconcileClassUpdates c cls = (c, some (.other "list failed")) := by
  simp [reconcileClassUpdates, hl]

theorem reconcileClassUpdates_eq_of_list_ok {c : Cluster} {cls : NamespaceClass}
    (hl : c.failListNs = false) :
    reconcileClassUpdates c cls =
      (match updateClassStatus
          ((listNamespacesWithLabel c cls.name).foldl
            (fun acc ns => reconcileNamespaceForClass acc ns cls
              (diffRemoved (toNameGVKMap cls.lastAppliedResources)
                (toNameGVKMap cls.resources))) c)
          { cls with lastAppliedResources := cls.resources } with
       | .error e =>
           ((listNamespacesWithLabel c cls.name).foldl
             (fun acc ns => reconcileNamespaceForClass acc ns cls
               (diffRemoved (toNameGVKMap cls.lastAppliedResources)
                 (toNameGVKMap cls.resources))) c, some e)
       | .ok c2 => (c2, none)) := by
  simp only [reconcileClassUpdates, hl]
  rfl

theorem Reconcile_of_findNamespace {c : Cluster} {r : String} {ns : KNamespace}
    (h : findNamespace c r = some ns) :
    Reconcile c r = reconcileNamespaceCreate c ns := by
  unfold Reconcile
  rw [h]

theorem reconcileNamespaceCreate_no_label {c : Cluster} {ns : KNamespace}
    (h : lookupAssoc ns.labels NamespaceClassNameKey = none) :
    reconcileNamespaceCreate c ns = (c, none) := by
  unfold reconcileNamespaceCreate
  rw [h]

theorem reconcileNamespaceCreate_missing_class {c : Cluster} {ns : KNamespace}
    {className : String}
    (hlab : lookupAssoc ns.labels NamespaceClassNameKey = some className)
    (hcls : findClass c className = none) :
    reconcileNamespaceCreate c ns =
      (recordEvent c ns.name "MissingNamespaceClass" className, some .notFound) := by
  simp [reconcileNamespaceCreate, hlab, hcls]

theorem reconcileNamespaceCreate_found {c : Cluster} {ns : KNamespace}
    {className : String} {cls : NamespaceClass}
    (hlab : lookupAssoc ns.labels NamespaceClassNameKey = some className)
    (hcls : findClass c className = some cls) :
    reconcileNamespaceCreate c ns = (createResources c ns.name cls.resources, none) := by
  simp [reconcileNamespaceCreate, hlab, hcls]

theorem Reconcile_class_active {c : Cluster} {r : String} {cls : NamespaceClass}
    (hns : findNamespace c r = none) (hcls : findClass c r = some cls)
    (hact : cls.deletionTimestamp = none) :
    Reconcile c r =
      (match ensureFinalizer c cls with
       | (_, some e) => (c, some e)
       | ((c1, cls1), none) => reconcileClassUpdates c1 cls1) := by
  simp [Reconcile, hns, hcls, hact]

theorem Reconcile_class_deleting {c : Cluster} {r : String} {cls : NamespaceClass}
    (hns : findNamespace c r = none) (hcls : findClass c r = some cls)
    (hdel : cls.deletionTimestamp.isSome) :
    Reconcile c r = finalizeClass c cls := by
  simp [Reconcile, hns, hcls, hdel]

theorem ensureFinalizer_present {c : Cluster} {cls : NamespaceClass}
    (h : NamespaceClassFinalizerKey ∈ cls.finalizers) :
    ensureFinalizer c cls = ((c, cls), none) := by
  unfold ensureFinalizer
  rw [if_pos h]

theorem ensureFinalizer_absent {c : Cluster} {cls : NamespaceClass}
    (h : ¬ NamespaceClassFinalizerKey ∈ cls.finalizers) :
    ensureFinalizer c cls =
      (match updateClass c
          { cls with finalizers := cls.finalizers ++ [NamespaceClassFinalizerKey] } with
       | .error e =>
           ((c, { cls with finalizers := cls.finalizers ++ [NamespaceClassFinalizerKey] }),
            some e)
       | .ok c' =>
           ((c', { cls with finalizers := cls.finalizers ++ [NamespaceClassFinalizerKey] }),
            none)) := by
  unfold ensureFinalizer
  rw [if_neg h]

theorem reconcileNamespaceClassDelete_snd_some {c : Cluster} {cn : String}
    (h : ((reconcileNamespaceClassDelete c cn).2).isSome) :
    (reconcileNamespaceClassDelete c cn).1 = c ∧ c.failListNs = true := by
  by_cases hl : c.failListNs
  · constructor
    · simp [reconcileNamespaceClassDelete, hl]
    · exact hl
  · exfalso
    cases hcls : findClass c cn with
    | none => simp [reconcileNamespaceClassDelete, hl, hcls] at h
    | some cls => simp [reconcileNamespaceClassDelete, hl, hcls] at h

theorem reconcileNamespaceClassDelete_eq {c : Cluster} {cn : String}
    {cls : NamespaceClass} (hl : c.failListNs = false)
    (hcls : findClass c cn = some cls) :
    reconcileNamespaceClassDelete c cn =
      ((listNamespacesWithLabel c cn).foldl
        (fun acc ns =>
          if lookupAssoc ns.annots NamespaceClassCleanupKey = some "true" then
            deleteResources acc ns.name cls.resources
          else recordEvent acc ns.name "OrphanedNamespaceClass" cn) c, none) := by
  simp only [reconcileNamespaceClassDelete, hl, hcls]
  rfl

theorem finalizeClass_present {c : Cluster} {cls : NamespaceClass}
    (h : NamespaceClassFinalizerKey ∈ cls.finalizers) :
    finalizeClass c cls =
      (match reconcileNamespaceClassDelete c cls.name with
       | (c1, some e) => (c1, some e)
       | (c1, none) =>
           match updateClass c1 { cls with
             finalizers := cls.finalizers.filter
               (fun f => ¬ f = NamespaceClassFinalizerKey) } with
           | .error e => (c1, some e)
           | .ok c2 => (c2, none)) := by
  unfold finalizeClass
  rw [if_pos h]

/-! ### Literal-list step equations -/

theorem upsertResources_cons_valid (c : Cluster) (n : String) (g : GVK)
    (nm p : String) (rest : List RawExtension) :
    upsertResources c n (RawExtension.valid g nm p :: rest) =
      upsertResources (upsert c ⟨g, nm, n, 0, p⟩).1 n rest := rfl

theorem upsertResources_cons_malformed (c : Cluster) (n m : String)
    (rest : List RawExtension) :
    upsertResources c n (RawExtension.malformed m :: rest) =
      upsertResources c n rest := rfl

theorem createResources_cons_valid (c : Cluster) (n : String) (g : GVK)
    (nm p : String) (rest : List RawExtension) :
    createResources c n (RawExtension.valid g nm p :: rest) =
      createResources
        (match clusterCreate c ⟨g, nm, n, 0, p⟩ with
         | .error _ => c
         | .ok c' => c') n rest := rfl

theorem deleteResources_cons_valid (c : Cluster) (n : String) (g : GVK)
    (nm p : String) (rest : List RawExtension) :
    deleteResources c n (RawExtension.valid g nm p :: rest) =
      deleteResources
        (match clusterDelete c ⟨g, nm, n⟩ with
         | .error _ => c
         | .ok c' => c') n rest := rfl

theorem deleteRemoved_cons_pair (c : Cluster) (n nm : String) (g : GVK)
    (rest : List (String × GVK)) :
    deleteRemoved c n ((nm, g) :: rest) =
      deleteRemoved
        (match clusterDelete c ⟨g, nm, n⟩ with
         | .error _ => c
         | .ok c' => c') n rest := rfl

/-- With an empty removed map the per-namespace class reconcile is exactly
the upsert loop, whatever the cleanup-obsolete annotation says. -/
theorem reconcileNamespaceForClass_removed_nil (c : Cluster) (ns : KNamespace)
    (cls : NamespaceClass) :
    reconcileNamespaceForClass c ns cls [] =
      upsertResources c ns.name cls.resources := by
  unfold reconcileNamespaceForClass
  by_cases h : lookupAssoc ns.annots NamespaceClassCleanupObsoleteKey = some "true"
  · simp only [h, if_true]
    rfl
  · simp only [h, if_false]

theorem diffRemoved_nil_left (x : List (String × GVK)) :
    diffRemoved [] x = [] := rfl

/-! ### Claim C1 -/

/-- C1 counterexample: with previous = [ConfigMap "a"] and current =
[Secret "a"], tuple-identity diffing (the claim's contract) marks
("a", ConfigMap) as removed, but the implementation's `diffRemoved`,
keyed on the name alone, returns the empty set. -/
theorem C1_counterexample :
    diffRemoved
        (toNameGVKMap [RawExtension.valid ⟨"", "v1", "ConfigMap"⟩ "a" "p"])
        (toNameGVKMap [RawExtension.valid ⟨"", "v1", "Secret"⟩ "a" "p"]) = [] ∧
    ("a", (⟨"", "v1", "ConfigMap"⟩ : GVK)) ∈
      specRemovedTuples
        [RawExtension.valid ⟨"", "v1", "ConfigMap"⟩ "a" "p"]
        [RawExtension.valid ⟨"", "v1", "Secret"⟩ "a" "p"] := by
  decide

/-- C1 (amended): the removed-set computation returns exactly the entries
whose *name* is a key of the previous map but not of the current map —
identity equality for the diff is on the name alone, and the GVK recorded
for a removed name is the previously applied one.  In particular a template
whose name survives is never classified as removed, even when its kind or
apiVersion changed. -/
theorem C1_diffRemoved_name_only (previous current : List RawExtension)
    (n : String) (g : GVK) :
    (n, g) ∈ diffRemoved (toNameGVKMap previous) (toNameGVKMap current) ↔
      lookupGVK (toNameGVKMap previous) n = some g ∧
      lookupGVK (toNameGVKMap current) n = none := by
  rw [mem_diffRemoved_iff]
  constructor
  · rintro ⟨hm, hl⟩
    exact ⟨(mem_iff_lookupGVK (toNameGVKMap_nodup previous) n g).mp hm, hl⟩
  · rintro ⟨hm, hl⟩
    exact ⟨(mem_iff_lookupGVK (toNameGVKMap_nodup previous) n g).mpr hm, hl⟩

/-! ### Claim C10 -/

/-- C10: any failure of the existence read — not only not-found — makes the
Upsert Executor fall through to a create, and the error `upsert` returns is
always a create or update error, never the read error. -/
theorem C10_upsert_read_error_falls_to_create :
    (∀ (c : Cluster) (obj : ParsedObj) (e : StoreErr),
        clusterGetObj c (keyOf obj) = .error e →
        upsert c obj =
          match clusterCreate c obj with
          | .error ce => (c, some ce)
          | .ok c' => (c', none)) ∧
    (∀ (c : Cluster) (obj : ParsedObj) (c' : Cluster) (err : StoreErr),
        upsert c obj = (c', some err) →
        (∃ rv, clusterUpdate c { obj with resourceVersion := rv } = .error err) ∨
        clusterCreate c obj = .error err) := by
  constructor
  · intro c obj e h
    exact upsert_get_error h
  · intro c obj c' err h
    cases hget : clusterGetObj c (keyOf obj) with
    | ok ex =>
        rw [upsert_of_get_ok hget] at h
        cases hupd : clusterUpdate c { obj with resourceVersion := ex.resourceVersion } with
        | error e =>
            rw [hupd] at h
            left
            refine ⟨ex.resourceVersion, ?_⟩
            have h2 : e = err := by
              have := congrArg Prod.snd h
              simpa using this
            subst h2
            exact hupd
        | ok c'' =>
            rw [hupd] at h
            exact absurd (congrArg Prod.snd h) (by simp)
    | error e =>
        rw [upsert_get_error hget] at h
        cases hcr : clusterCreate c obj with
        | error ce =>
            rw [hcr] at h
            right
            have h2 : ce = err := by
              have := congrArg Prod.snd h
              simpa using this
            subst h2
            rfl
        | ok c'' =>
            rw [hcr] at h
            exact absurd (congrArg Prod.snd h) (by simp)

/-- C10 witness: a read that fails with a non-not-found error (injected
fault) on an identity that actually exists still falls through to create,
and the returned error is the create error (already-exists), not the read
error. -/
theorem C10_witness :
    (upsert
        { objects := [(⟨⟨"", "v1", "ConfigMap"⟩, "a", "ns1"⟩, ⟨7, "old"⟩)],
          namespaces := [], classes := [], events := [], nextRV := 8,
          failGet := [⟨⟨"", "v1", "ConfigMap"⟩, "a", "ns1"⟩], failCreate := [],
          failUpdate := [], failDelete := [], failListNs := false,
          failClassUpdate := false, failStatusUpdate := false }
        ⟨⟨"", "v1", "ConfigMap"⟩, "a", "ns1", 0, "new"⟩ =
      match clusterCreate
          { objects := [(⟨⟨"", "v1", "ConfigMap"⟩, "a", "ns1"⟩, ⟨7, "old"⟩)],
            namespaces := [], classes := [], events := [], nextRV := 8,
            failGet := [⟨⟨"", "v1", "ConfigMap"⟩, "a", "ns1"⟩], failCreate := [],
            failUpdate := [], failDelete := [], failListNs := false,
            failClassUpdate := false, failStatusUpdate := false }
          ⟨⟨"", "v1", "ConfigMap"⟩, "a", "ns1", 0, "new"⟩ with
      | .error ce =>
          ({ objects := [(⟨⟨"", "v1", "ConfigMap"⟩, "a", "ns1"⟩, ⟨7, "old"⟩)],
             namespaces := [], classes := [], events := [], nextRV := 8,
             failGet := [⟨⟨"", "v1", "ConfigMap"⟩, "a", "ns1"⟩], failCreate := [],
             failUpdate := [], failDelete := [], failListNs := false,
             failClassUpdate := false, failStatusUpdate := false }, some ce)
      | .ok c' => (c', none)) ∧
    ((∃ rv, clusterUpdate
        { objects := [(⟨⟨"", "v1", "ConfigMap"⟩, "a", "ns1"⟩, ⟨7, "old"⟩)],
          namespaces := [], classes := [], events := [], nextRV := 8,
          failGet := [⟨⟨"", "v1", "ConfigMap"⟩, "a", "ns1"⟩], failCreate := [],
          failUpdate := [], failDelete := [], failListNs := false,
          failClassUpdate := false, failStatusUpdate := false }
        ⟨⟨"", "v1", "ConfigMap"⟩, "a", "ns1", rv, "new"⟩ =
          .error .alreadyExists) ∨
      clusterCreate
        { objects := [(⟨⟨"", "v1", "ConfigMap"⟩, "a", "ns1"⟩, ⟨7, "old"⟩)],
          namespaces := [], classes := [], events := [], nextRV := 8,
          failGet := [⟨⟨"", "v1", "ConfigMap"⟩, "a", "ns1"⟩], failCreate := [],
          failUpdate := [], failDelete := [], failListNs := false,
          failClassUpdate := false, failStatusUpdate := false }
        ⟨⟨"", "v1", "ConfigMap"⟩, "a", "ns1", 0, "new"⟩ = .error .alreadyExists) :=
  ⟨C10_upsert_read_error_falls_to_create.1 _ _ (.other "get failed") (by rfl),
   C10_upsert_read_error_falls_to_create.2 _
     ⟨⟨"", "v1", "ConfigMap"⟩, "a", "ns1", 0, "new"⟩
     { objects := [(⟨⟨"", "v1", "ConfigMap"⟩, "a", "ns1"⟩, ⟨7, "old"⟩)],
       namespaces := [], classes := [], events := [], nextRV := 8,
       failGet := [⟨⟨"", "v1", "ConfigMap"⟩, "a", "ns1"⟩], failCreate := [],
       failUpdate := [], failDelete := [], failListNs := false,
       failClassUpdate := false, failStatusUpdate := false }
     .alreadyExists (by decide)⟩

/-! ### Claim C9 -/

/-- C9: a reconcile whose request resolves as a namespace dispatches to the
namespace-create path, which never deletes nor updates any existing child
object (every previously stored object keeps its exact stored value — only
creates are attempted), and which never reads the namespace's cleanup or
cleanup-obsolete annotations (its result is invariant under changing them). -/
theorem C9_namespace_reconcile_frame (c : Cluster) (r : String)
    (ns : KNamespace) (h : findNamespace c r = some ns) :
    Reconcile c r = reconcileNamespaceCreate c ns ∧
    (∀ (k : ObjKey) (o : StoredObj), lookupObj c.objects k = some o →
      lookupObj (Reconcile c r).1.objects k = some o) ∧
    (∀ a : List (String × String),
      reconcileNamespaceCreate c { ns with annots := a } =
        reconcileNamespaceCreate c ns) := by
  refine ⟨Reconcile_of_findNamespace h, ?_, ?_⟩
  · intro k o hk
    rw [Reconcile_of_findNamespace h]
    cases hlab : lookupAssoc ns.labels NamespaceClassNameKey with
    | none =>
        rw [reconcileNamespaceCreate_no_label hlab]
        exact hk
    | some cn =>
        cases hcls : findClass c cn with
        | none =>
            rw [reconcileNamespaceCreate_missing_class hlab hcls]
            exact hk
        | some cls =>
            rw [reconcileNamespaceCreate_found hlab hcls]
            exact createResources_preserves_lookup _ _ hk
  · intro a
    rfl

/-- C9 witness: on a concrete cluster where the triggering namespace holds
an object with a stale payload, the namespace-driven reconcile preserves it
untouched and ignores the cleanup annotations. -/
theorem C9_witness :
    Reconcile
        { objects := [(⟨⟨"", "v1", "ConfigMap"⟩, "t", "ns1"⟩, ⟨5, "old"⟩)],
          namespaces := [⟨"ns1", [(NamespaceClassNameKey, "cls")],
            [(NamespaceClassCleanupKey, "true"),
             (NamespaceClassCleanupObsoleteKey, "true")]⟩],
          classes := [⟨"cls", none, [],
            [RawExtension.valid ⟨"", "v1", "ConfigMap"⟩ "t" "new"], []⟩],
          events := [], nextRV := 6, failGet := [], failCreate := [],
          failUpdate := [], failDelete := [], failListNs := false,
          failClassUpdate := false, failStatusUpdate := false } "ns1" =
      reconcileNamespaceCreate
        { objects := [(⟨⟨"", "v1", "ConfigMap"⟩, "t", "ns1"⟩, ⟨5, "old"⟩)],
          namespaces := [⟨"ns1", [(NamespaceClassNameKey, "cls")],
            [(NamespaceClassCleanupKey, "true"),
             (NamespaceClassCleanupObsoleteKey, "true")]⟩],
          classes := [⟨"cls", none, [],
            [RawExtension.valid ⟨"", "v1", "ConfigMap"⟩ "t" "new"], []⟩],
          events := [], nextRV := 6, failGet := [], failCreate := [],
          failUpdate := [], failDelete := [], failListNs := false,
          failClassUpdate := false, failStatusUpdate := false }
        ⟨"ns1", [(NamespaceClassNameKey, "cls")],
         [(NamespaceClassCleanupKey, "true"),
          (NamespaceClassCleanupObsoleteKey, "true")]⟩ ∧
    lookupObj (Reconcile
        { objects := [(⟨⟨"", "v1", "ConfigMap"⟩, "t", "ns1"⟩, ⟨5, "old"⟩)],
          namespaces := [⟨"ns1", [(NamespaceClassNameKey, "cls")],
            [(NamespaceClassCleanupKey, "true"),
             (NamespaceClassCleanupObsoleteKey, "true")]⟩],
          classes := [⟨"cls", none, [],
            [RawExtension.valid ⟨"", "v1", "ConfigMap"⟩ "t" "new"], []⟩],
          events := [], nextRV := 6, failGet := [], failCreate := [],
          failUpdate := [], failDelete := [], failListNs := false,
          failClassUpdate := false, failStatusUpdate := false } "ns1").1.objects
      ⟨⟨"", "v1", "ConfigMap"⟩, "t", "ns1"⟩ = some ⟨5, "old"⟩ := by
  have h := C9_namespace_reconcile_frame
    { objects := [(⟨⟨"", "v1", "ConfigMap"⟩, "t", "ns1"⟩, ⟨5, "old"⟩)],
      namespaces := [⟨"ns1", [(NamespaceClassNameKey, "cls")],
        [(NamespaceClassCleanupKey, "true"),
         (NamespaceClassCleanupObsoleteKey, "true")]⟩],
      classes := [⟨"cls", none, [],
        [RawExtension.valid ⟨"", "v1", "ConfigMap"⟩ "t" "new"], []⟩],
      events := [], nextRV := 6, failGet := [], failCreate := [],
      failUpdate := [], failDelete := [], failListNs := false,
      failClassUpdate := false, failStatusUpdate := false } "ns1"
    ⟨"ns1", [(NamespaceClassNameKey, "cls")],
     [(NamespaceClassCleanupKey, "true"),
      (NamespaceClassCleanupObsoleteKey, "true")]⟩ (by decide)
  exact ⟨h.1, h.2.1 _ _ (by decide)⟩

/-! ### Claim C7 -/

/-- C7: with no injected faults at the template's identity, applying the
same template twice in a row leaves exactly one object carrying that
identity, holding the template's latest payload, the second call being an
error-free update; and whenever an object with the same identity already
exists, its resourceVersion is carried onto the new payload and the written
update is exactly that carried-token update. -/
theorem C7_upsert_idempotent (c : Cluster) (obj : ParsedObj)
    (hw : ObjectsWF c) (hg : ¬ keyOf obj ∈ c.failGet)
    (hc : ¬ keyOf obj ∈ c.failCreate) (hu : ¬ keyOf obj ∈ c.failUpdate) :
    countKey ((upsert (upsert c obj).1 obj).1).objects (keyOf obj) = 1 ∧
    lookupObj ((upsert (upsert c obj).1 obj).1).objects (keyOf obj) =
      some ⟨c.nextRV + 1, obj.payload⟩ ∧
    (upsert (upsert c obj).1 obj).2 = none ∧
    (∀ ex, lookupObj c.objects (keyOf obj) = some ex →
      clusterUpdate c { obj with resourceVersion := ex.resourceVersion } =
        .ok (upsert c obj).1 ∧ (upsert c obj).2 = none) := by
  obtain ⟨h1look, h1err, h1rv⟩ := upsert_fst_lookup_self hg hc hu
  obtain ⟨hs1, -⟩ := upsert_fst_shape c obj
  have hg1 : ¬ keyOf obj ∈ (upsert c obj).1.failGet := by
    rw [hs1.2.2.1]; exact hg
  have hu1 : ¬ keyOf obj ∈ (upsert c obj).1.failUpdate := by
    rw [hs1.2.2.2.2.1]; exact hu
  have h2 := upsert_update_eq hg1 hu1 h1look
  have hlook2 : lookupObj ((upsert (upsert c obj).1 obj).1).objects (keyOf obj) =
      some ⟨c.nextRV + 1, obj.payload⟩ := by
    rw [h2]
    rw [show ((upsert c obj).1.nextRV : Nat) = c.nextRV + 1 from h1rv] at *
    exact lookupObj_replaceObj_self _ _ _ _ h1look
  have hw2 : ObjectsWF ((upsert (upsert c obj).1 obj).1) :=
    upsert_WF (upsert_WF hw)
  refine ⟨countKey_eq_one_of_lookup hw2 hlook2, hlook2, by rw [h2], ?_⟩
  intro ex hex
  constructor
  · rw [upsert_update_eq hg hu hex]
    exact clusterUpdate_carried_ok hu hex
  · rw [upsert_update_eq hg hu hex]

/-- C7 witness: double-applying a ConfigMap template onto a namespace that
already holds a stale copy ends with exactly one object holding the latest
payload, and the first call's update carries the existing resourceVersion. -/
theorem C7_witness :
    countKey ((upsert
        (upsert
          { objects := [(⟨⟨"", "v1", "ConfigMap"⟩, "t", "ns1"⟩, ⟨5, "old"⟩)],
            namespaces := [], classes := [], events := [], nextRV := 9,
            failGet := [], failCreate := [], failUpdate := [], failDelete := [],
            failListNs := false, failClassUpdate := false,
            failStatusUpdate := false }
          ⟨⟨"", "v1", "ConfigMap"⟩, "t", "ns1", 0, "new"⟩).1
        ⟨⟨"", "v1", "ConfigMap"⟩, "t", "ns1", 0, "new"⟩).1).objects
      ⟨⟨"", "v1", "ConfigMap"⟩, "t", "ns1"⟩ = 1 ∧
    lookupObj ((upsert
        (upsert
          { objects := [(⟨⟨"", "v1", "ConfigMap"⟩, "t", "ns1"⟩, ⟨5, "old"⟩)],
            namespaces := [], classes := [], events := [], nextRV := 9,
            failGet := [], failCreate := [], failUpdate := [], failDelete := [],
            failListNs := false, failClassUpdate := false,
            failStatusUpdate := false }
          ⟨⟨"", "v1", "ConfigMap"⟩, "t", "ns1", 0, "new"⟩).1
        ⟨⟨"", "v1", "ConfigMap"⟩, "t", "ns1", 0, "new"⟩).1).objects
      ⟨⟨"", "v1", "ConfigMap"⟩, "t", "ns1"⟩ = some ⟨10, "new"⟩ := by
  have h := C7_upsert_idempotent
    { objects := [(⟨⟨"", "v1", "ConfigMap"⟩, "t", "ns1"⟩, ⟨5, "old"⟩)],
      namespaces := [], classes := [], events := [], nextRV := 9,
      failGet := [], failCreate := [], failUpdate := [], failDelete := [],
      failListNs := false, failClassUpdate := false, failStatusUpdate := false }
    ⟨⟨"", "v1", "ConfigMap"⟩, "t", "ns1", 0, "new"⟩
    (by unfold ObjectsWF; decide) (by decide) (by decide) (by decide)
  exact ⟨h.1, h.2.1⟩

/-! ### Claim C2 -/

/-- C2 counterexample: one referencing namespace, one template whose create
is failed by the store.  The class-update reconcile completes without error
and persists `LastAppliedResources = [T]` — the in-flight desired list —
although T was never materialized (its object is absent afterwards). -/
theorem C2_counterexample :
    (reconcileClassUpdates
        { objects := [],
          namespaces := [⟨"ns1", [(NamespaceClassNameKey, "cls")], []⟩],
          classes := [⟨"cls", none, [],
            [RawExtension.valid ⟨"", "v1", "ConfigMap"⟩ "t" "new"], []⟩],
          events := [], nextRV := 0, failGet := [],
          failCreate := [⟨⟨"", "v1", "ConfigMap"⟩, "t", "ns1"⟩],
          failUpdate := [], failDelete := [], failListNs := false,
          failClassUpdate := false, failStatusUpdate := false }
        ⟨"cls", none, [],
          [RawExtension.valid ⟨"", "v1", "ConfigMap"⟩ "t" "new"], []⟩).2 = none ∧
    findClass (reconcileClassUpdates
        { objects := [],
          namespaces := [⟨"ns1", [(NamespaceClassNameKey, "cls")], []⟩],
          classes := [⟨"cls", none, [],
            [RawExtension.valid ⟨"", "v1", "ConfigMap"⟩ "t" "new"], []⟩],
          events := [], nextRV := 0, failGet := [],
          failCreate := [⟨⟨"", "v1", "ConfigMap"⟩, "t", "ns1"⟩],
          failUpdate := [], failDelete := [], failListNs := false,
          failClassUpdate := false, failStatusUpdate := false }
        ⟨"cls", none, [],
          [RawExtension.valid ⟨"", "v1", "ConfigMap"⟩ "t" "new"], []⟩).1 "cls" =
      some ⟨"cls", none, [],
        [RawExtension.valid ⟨"", "v1", "ConfigMap"⟩ "t" "new"],
        [RawExtension.valid ⟨"", "v1", "ConfigMap"⟩ "t" "new"]⟩ ∧
    lookupObj (reconcileClassUpdates
        { objects := [],
          namespaces := [⟨"ns1", [(NamespaceClassNameKey, "cls")], []⟩],
          classes := [⟨"cls", none, [],
            [RawExtension.valid ⟨"", "v1", "ConfigMap"⟩ "t" "new"], []⟩],
          events := [], nextRV := 0, failGet := [],
          failCreate := [⟨⟨"", "v1", "ConfigMap"⟩, "t", "ns1"⟩],
          failUpdate := [], failDelete := [], failListNs := false,
          failClassUpdate := false, failStatusUpdate := false }
        ⟨"cls", none, [],
          [RawExtension.valid ⟨"", "v1", "ConfigMap"⟩ "t" "new"], []⟩).1.objects
      ⟨⟨"", "v1", "ConfigMap"⟩, "t", "ns1"⟩ = none := by
  decide

/-- C2 (amended): after every class-update reconcile that completes without
error, the persisted `LastAppliedResources` equals the class's entire
current spec template list — the controller persists the in-flight desired
state wholesale, independently of which template upserts succeeded. -/
theorem C2_lastApplied_is_spec (c : Cluster) (cls : NamespaceClass)
    (h : (reconcileClassUpdates c cls).2 = none) :
    findClass (reconcileClassUpdates c cls).1 cls.name =
      some { cls with lastAppliedResources := cls.resources } := by
  by_cases hl : c.failListNs
  · rw [reconcileClassUpdates_list_fail cls hl] at h
    exact absurd h (by simp)
  · have hl' : c.failListNs = false := by
      revert hl; cases c.failListNs <;> simp
    rw [reconcileClassUpdates_eq_of_list_ok hl'] at h ⊢
    cases hst : updateClassStatus
        ((listNamespacesWithLabel c cls.name).foldl
          (fun acc ns => reconcileNamespaceForClass acc ns cls
            (diffRemoved (toNameGVKMap cls.lastAppliedResources)
              (toNameGVKMap cls.resources))) c)
        { cls with lastAppliedResources := cls.resources } with
    | error e =>
        rw [hst] at h
        exact absurd h (by simp)
    | ok c2 => exact findClass_after_updateClassStatus hst

/-- C2 amended witness: the same faulted single-template input, seen through
the amended statement. -/
theorem C2_lastApplied_is_spec_witness :
    findClass (reconcileClassUpdates
        { objects := [],
          namespaces := [⟨"ns1", [(NamespaceClassNameKey, "cls")], []⟩],
          classes := [⟨"cls", none, [],
            [RawExtension.valid ⟨"", "v1", "ConfigMap"⟩ "t" "new"], []⟩],
          events := [], nextRV := 0, failGet := [],
          failCreate := [⟨⟨"", "v1", "ConfigMap"⟩, "t", "ns1"⟩],
          failUpdate := [], failDelete := [], failListNs := false,
          failClassUpdate := false, failStatusUpdate := false }
        ⟨"cls", none, [],
          [RawExtension.valid ⟨"", "v1", "ConfigMap"⟩ "t" "new"], []⟩).1 "cls" =
      some ⟨"cls", none, [],
        [RawExtension.valid ⟨"", "v1", "ConfigMap"⟩ "t" "new"],
        [RawExtension.valid ⟨"", "v1", "ConfigMap"⟩ "t" "new"]⟩ :=
  C2_lastApplied_is_spec _ _ (by decide)

/-! ### Claim C3 -/

/-- C3 counterexample: a deleting class with the finalizer held, one
referencing namespace with cleanup enabled whose single object's delete is
failed by the store.  `finalizeClass` still removes the finalizer (the
stored class ends with no finalizers) and reports success even though that
namespace's cleanup did not succeed — its object is still present. -/
theorem C3_counterexample :
    (finalizeClass
        { objects := [(⟨⟨"", "v1", "ConfigMap"⟩, "t", "ns1"⟩, ⟨3, "p"⟩)],
          namespaces := [⟨"ns1", [(NamespaceClassNameKey, "cls")],
            [(NamespaceClassCleanupKey, "true")]⟩],
          classes := [⟨"cls", some 1, [NamespaceClassFinalizerKey],
            [RawExtension.valid ⟨"", "v1", "ConfigMap"⟩ "t" "p"], []⟩],
          events := [], nextRV := 4, failGet := [], failCreate := [],
          failUpdate := [],
          failDelete := [⟨⟨"", "v1", "ConfigMap"⟩, "t", "ns1"⟩],
          failListNs := false, failClassUpdate := false,
          failStatusUpdate := false }
        ⟨"cls", some 1, [NamespaceClassFinalizerKey],
          [RawExtension.valid ⟨"", "v1", "ConfigMap"⟩ "t" "p"], []⟩).2 = none ∧
    findClass (finalizeClass
        { objects := [(⟨⟨"", "v1", "ConfigMap"⟩, "t", "ns1"⟩, ⟨3, "p"⟩)],
          namespaces := [⟨"ns1", [(NamespaceClassNameKey, "cls")],
            [(NamespaceClassCleanupKey, "true")]⟩],
          classes := [⟨"cls", some 1, [NamespaceClassFinalizerKey],
            [RawExtension.valid ⟨"", "v1", "ConfigMap"⟩ "t" "p"], []⟩],
          events := [], nextRV := 4, failGet := [], failCreate := [],
          failUpdate := [],
          failDelete := [⟨⟨"", "v1", "ConfigMap"⟩, "t", "ns1"⟩],
          failListNs := false, failClassUpdate := false,
          failStatusUpdate := false }
        ⟨"cls", some 1, [NamespaceClassFinalizerKey],
          [RawExtension.valid ⟨"", "v1", "ConfigMap"⟩ "t" "p"], []⟩).1 "cls" =
      some ⟨"cls", some 1, [],
        [RawExtension.valid ⟨"", "v1", "ConfigMap"⟩ "t" "p"], []⟩ ∧
    lookupObj (finalizeClass
        { objects := [(⟨⟨"", "v1", "ConfigMap"⟩, "t", "ns1"⟩, ⟨3, "p"⟩)],
          namespaces := [⟨"ns1", [(NamespaceClassNameKey, "cls")],
            [(NamespaceClassCleanupKey, "true")]⟩],
          classes := [⟨"cls", some 1, [NamespaceClassFinalizerKey],
            [RawExtension.valid ⟨"", "v1", "ConfigMap"⟩ "t" "p"], []⟩],
          events := [], nextRV := 4, failGet := [], failCreate := [],
          failUpdate := [],
          failDelete := [⟨⟨"", "v1", "ConfigMap"⟩, "t", "ns1"⟩],
          failListNs := false, failClassUpdate := false,
          failStatusUpdate := false }
        ⟨"cls", some 1, [NamespaceClassFinalizerKey],
          [RawExtension.valid ⟨"", "v1", "ConfigMap"⟩ "t" "p"], []⟩).1.objects
      ⟨⟨"", "v1", "ConfigMap"⟩, "t", "ns1"⟩ = some ⟨3, "p"⟩ := by
  decide

/-- C3 (amended): an active classification ends every error-free reconcile
with the finalizer token stored on it; and the finalizer is removed only
after the deletion-triggered cleanup step returns without error — a cleanup
error (namespace listing failure) leaves every stored class, hence the
finalizer, untouched and surfaces the error.  (Per-object delete failures
inside the cleanup are logged and skipped, so they do not block removal —
that is the correction.) -/
theorem C3_finalizer_lifecycle :
    (∀ (c : Cluster) (r : String) (cls : NamespaceClass),
        findNamespace c r = none → findClass c r = some cls →
        cls.deletionTimestamp = none → (Reconcile c r).2 = none →
        ∃ cls', findClass (Reconcile c r).1 cls.name = some cls' ∧
          NamespaceClassFinalizerKey ∈ cls'.finalizers) ∧
    (∀ (c : Cluster) (cls : NamespaceClass),
        NamespaceClassFinalizerKey ∈ cls.finalizers →
        ((reconcileNamespaceClassDelete c cls.name).2).isSome →
        (finalizeClass c cls).1.classes = c.classes ∧
        ((finalizeClass c cls).2).isSome) := by
  constructor
  · intro c r cls hns hcls hact herr
    by_cases hfin : NamespaceClassFinalizerKey ∈ cls.finalizers
    · have heq : Reconcile c r = reconcileClassUpdates c cls := by
        rw [Reconcile_class_active hns hcls hact, ensureFinalizer_present hfin]
      rw [heq] at herr ⊢
      refine ⟨_, C2_lastApplied_is_spec c cls herr, ?_⟩
      exact hfin
    · cases hupd : updateClass c
          { cls with finalizers := cls.finalizers ++ [NamespaceClassFinalizerKey] } with
      | error e =>
          have heq : Reconcile c r = (c, some e) := by
            rw [Reconcile_class_active hns hcls hact, ensureFinalizer_absent hfin,
              hupd]
          rw [heq] at herr
          exact absurd herr (by simp)
      | ok c1 =>
          have heq : Reconcile c r = reconcileClassUpdates c1
              { cls with finalizers := cls.finalizers ++ [NamespaceClassFinalizerKey] } := by
            rw [Reconcile_class_active hns hcls hact, ensureFinalizer_absent hfin,
              hupd]
          rw [heq] at herr ⊢
          refine ⟨_, C2_lastApplied_is_spec c1 _ herr, ?_⟩
          simp
  · intro c cls hfin hsome
    obtain ⟨-, hlt⟩ := reconcileNamespaceClassDelete_snd_some hsome
    have hdel : reconcileNamespaceClassDelete c cls.name =
        (c, some (.other "list failed")) := by
      simp [reconcileNamespaceClassDelete, hlt]
    constructor
    · rw [finalizeClass_present hfin, hdel]
    · rw [finalizeClass_present hfin, hdel]
      rfl

/-- C3 witness: (a) a fresh active class gains the finalizer on an
error-free reconcile; (b) with the namespace listing failing, a deleting
class with the finalizer keeps it (stored classes unchanged) and the
finalize step reports the error. -/
theorem C3_finalizer_lifecycle_witness :
    (∃ cls', findClass (Reconcile
        { objects := [], namespaces := [],
          classes := [⟨"cls", none, [],
            [RawExtension.valid ⟨"", "v1", "ConfigMap"⟩ "t" "p"], []⟩],
          events := [], nextRV := 0, failGet := [], failCreate := [],
          failUpdate := [], failDelete := [], failListNs := false,
          failClassUpdate := false, failStatusUpdate := false } "cls").1 "cls" =
        some cls' ∧ NamespaceClassFinalizerKey ∈ cls'.finalizers) ∧
    ((finalizeClass
        { objects := [], namespaces := [],
          classes := [⟨"cls", some 1, [NamespaceClassFinalizerKey],
            [RawExtension.valid ⟨"", "v1", "ConfigMap"⟩ "t" "p"], []⟩],
          events := [], nextRV := 0, failGet := [], failCreate := [],
          failUpdate := [], failDelete := [], failListNs := true,
          failClassUpdate := false, failStatusUpdate := false }
        ⟨"cls", some 1, [NamespaceClassFinalizerKey],
          [RawExtension.valid ⟨"", "v1", "ConfigMap"⟩ "t" "p"], []⟩).1.classes =
      ({ objects := [], namespaces := [],
          classes := [⟨"cls", some 1, [NamespaceClassFinalizerKey],
            [RawExtension.valid ⟨"", "v1", "ConfigMap"⟩ "t" "p"], []⟩],
          events := [], nextRV := 0, failGet := [], failCreate := [],
          failUpdate := [], failDelete := [], failListNs := true,
          failClassUpdate := false, failStatusUpdate := false } : Cluster).classes ∧
      ((finalizeClass
        { objects := [], namespaces := [],
          classes := [⟨"cls", some 1, [NamespaceClassFinalizerKey],
            [RawExtension.valid ⟨"", "v1", "ConfigMap"⟩ "t" "p"], []⟩],
          events := [], nextRV := 0, failGet := [], failCreate := [],
          failUpdate := [], failDelete := [], failListNs := true,
          failClassUpdate := false, failStatusUpdate := false }
        ⟨"cls", some 1, [NamespaceClassFinalizerKey],
          [RawExtension.valid ⟨"", "v1", "ConfigMap"⟩ "t" "p"], []⟩).2).isSome) :=
  ⟨C3_finalizer_lifecycle.1
     { objects := [], namespaces := [],
       classes := [⟨"cls", none, [],
         [RawExtension.valid ⟨"", "v1", "ConfigMap"⟩ "t" "p"], []⟩],
       events := [], nextRV := 0, failGet := [], failCreate := [],
       failUpdate := [], failDelete := [], failListNs := false,
       failClassUpdate := false, failStatusUpdate := false } "cls"
     ⟨"cls", none, [],
       [RawExtension.valid ⟨"", "v1", "ConfigMap"⟩ "t" "p"], []⟩
     (by decide) (by decide) (by decide) (by decide),
   C3_finalizer_lifecycle.2 _
     ⟨"cls", some 1, [NamespaceClassFinalizerKey],
       [RawExtension.valid ⟨"", "v1", "ConfigMap"⟩ "t" "p"], []⟩
     (by decide) (by decide)⟩

/-! ### Claim C4 -/

/-- C4 (code bug): a namespace-triggered reconcile where the namespace
already holds the template's object with a stale payload completes without
error but leaves the stale payload in place — the path only attempts
creates, and the create fails with already-exists and is skipped.  The
Upsert Executor on the very same state would have stored the latest
payload, as the claim (and the `Reconcile` doc comment) require. -/
theorem C4_namespace_path_keeps_stale_payload :
    (Reconcile
        { objects := [(⟨⟨"", "v1", "ConfigMap"⟩, "t", "ns1"⟩, ⟨5, "old"⟩)],
          namespaces := [⟨"ns1", [(NamespaceClassNameKey, "cls")], []⟩],
          classes := [⟨"cls", none, [],
            [RawExtension.valid ⟨"", "v1", "ConfigMap"⟩ "t" "new"], []⟩],
          events := [], nextRV := 6, failGet := [], failCreate := [],
          failUpdate := [], failDelete := [], failListNs := false,
          failClassUpdate := false, failStatusUpdate := false } "ns1").2 = none ∧
    lookupObj (Reconcile
        { objects := [(⟨⟨"", "v1", "ConfigMap"⟩, "t", "ns1"⟩, ⟨5, "old"⟩)],
          namespaces := [⟨"ns1", [(NamespaceClassNameKey, "cls")], []⟩],
          classes := [⟨"cls", none, [],
            [RawExtension.valid ⟨"", "v1", "ConfigMap"⟩ "t" "new"], []⟩],
          events := [], nextRV := 6, failGet := [], failCreate := [],
          failUpdate := [], failDelete := [], failListNs := false,
          failClassUpdate := false, failStatusUpdate := false } "ns1").1.objects
      ⟨⟨"", "v1", "ConfigMap"⟩, "t", "ns1"⟩ = some ⟨5, "old"⟩ ∧
    lookupObj (upsert
        { objects := [(⟨⟨"", "v1", "ConfigMap"⟩, "t", "ns1"⟩, ⟨5, "old"⟩)],
          namespaces := [⟨"ns1", [(NamespaceClassNameKey, "cls")], []⟩],
          classes := [⟨"cls", none, [],
            [RawExtension.valid ⟨"", "v1", "ConfigMap"⟩ "t" "new"], []⟩],
          events := [], nextRV := 6, failGet := [], failCreate := [],
          failUpdate := [], failDelete := [], failListNs := false,
          failClassUpdate := false, failStatusUpdate := false }
        ⟨⟨"", "v1", "ConfigMap"⟩, "t", "ns1", 0, "new"⟩).1.objects
      ⟨⟨"", "v1", "ConfigMap"⟩, "t", "ns1"⟩ = some ⟨6, "new"⟩ := by
  decide

/-! ### Claim C8 -/

/-- C8: a classification holding one malformed template between two valid
ones, reconciled through the class-update path into a referencing
namespace with no store faults, materializes both valid templates (each at
its identity with its payload), changes nothing else, and the reconcile's
overall result carries no error. -/
theorem C8_partial_failure_isolation (c : Cluster) (cls : NamespaceClass)
    (n : KNamespace) (gA gB : GVK) (nA nB pA pB m : String)
    (hres : cls.resources = [RawExtension.valid gA nA pA,
      RawExtension.malformed m, RawExtension.valid gB nB pB])
    (hlast : cls.lastAppliedResources = [])
    (hAB : ¬ nA = nB)
    (hlist : listNamespacesWithLabel c cls.name = [n])
    (hfg : c.failGet = []) (hfc : c.failCreate = []) (hfu : c.failUpdate = [])
    (hl : c.failListNs = false) (hstf : c.failStatusUpdate = false)
    (hcls : (findClass c cls.name).isSome)
    (_habsA : lookupObj c.objects ⟨gA, nA, n.name⟩ = none)
    (_habsB : lookupObj c.objects ⟨gB, nB, n.name⟩ = none) :
    (reconcileClassUpdates c cls).2 = none ∧
    lookupObj (reconcileClassUpdates c cls).1.objects ⟨gA, nA, n.name⟩ =
      some ⟨c.nextRV, pA⟩ ∧
    lookupObj (reconcileClassUpdates c cls).1.objects ⟨gB, nB, n.name⟩ =
      some ⟨c.nextRV + 1, pB⟩ ∧
    (∀ k : ObjKey, ¬ k = ⟨gA, nA, n.name⟩ → ¬ k = ⟨gB, nB, n.name⟩ →
      lookupObj (reconcileClassUpdates c cls).1.objects k =
        lookupObj c.objects k) := by
  have hkAB : ¬ (⟨gA, nA, n.name⟩ : ObjKey) = ⟨gB, nB, n.name⟩ := by
    intro e
    injection e with e1 e2 e3
    exact hAB e2
  obtain ⟨hlkA1, -, hrv1⟩ :=
    @upsert_fst_lookup_self c ⟨gA, nA, n.name, 0, pA⟩
      (by simp [hfg]) (by simp [hfc]) (by simp [hfu])
  obtain ⟨hsh1, -⟩ := upsert_fst_shape c ⟨gA, nA, n.name, 0, pA⟩
  obtain ⟨hlkB2, -, -⟩ :=
    @upsert_fst_lookup_self (upsert c ⟨gA, nA, n.name, 0, pA⟩).1
      ⟨gB, nB, n.name, 0, pB⟩
      (by rw [show ((upsert c ⟨gA, nA, n.name, 0, pA⟩).1).failGet = c.failGet
            from hsh1.2.2.1, hfg]; simp)
      (by rw [show ((upsert c ⟨gA, nA, n.name, 0, pA⟩).1).failCreate = c.failCreate
            from hsh1.2.2.2.1, hfc]; simp)
      (by rw [show ((upsert c ⟨gA, nA, n.name, 0, pA⟩).1).failUpdate = c.failUpdate
            from hsh1.2.2.2.2.1, hfu]; simp)
  obtain ⟨hsh2, -⟩ := upsert_fst_shape (upsert c ⟨gA, nA, n.name, 0, pA⟩).1
    ⟨gB, nB, n.name, 0, pB⟩
  have hshape : SameShape c
      ((upsert (upsert c ⟨gA, nA, n.name, 0, pA⟩).1 ⟨gB, nB, n.name, 0, pB⟩).1) :=
    sameShape_trans hsh1 hsh2
  have hfold : upsertResources c n.name cls.resources =
      (upsert (upsert c ⟨gA, nA, n.name, 0, pA⟩).1 ⟨gB, nB, n.name, 0, pB⟩).1 := by
    rw [hres, upsertResources_cons_valid, upsertResources_cons_malformed,
      upsertResources_cons_valid, upsertResources_nil]
  have hstS2 : ((upsert (upsert c ⟨gA, nA, n.name, 0, pA⟩).1
      ⟨gB, nB, n.name, 0, pB⟩).1).failStatusUpdate = false := by
    rw [hshape.2.2.2.2.2.2.2.2]
    exact hstf
  have hsome : (findClass
      ((upsert (upsert c ⟨gA, nA, n.name, 0, pA⟩).1 ⟨gB, nB, n.name, 0, pB⟩).1)
      { cls with lastAppliedResources := cls.resources }.name).isSome := by
    unfold findClass
    rw [hshape.2.1]
    exact hcls
  obtain ⟨S3, hstatus⟩ : ∃ S3, updateClassStatus
      ((upsert (upsert c ⟨gA, nA, n.name, 0, pA⟩).1 ⟨gB, nB, n.name, 0, pB⟩).1)
      { cls with lastAppliedResources := cls.resources } = .ok S3 :=
    ⟨_, updateClassStatus_eq_ok hstS2 hsome⟩
  have hS3obj : S3.objects =
      ((upsert (upsert c ⟨gA, nA, n.name, 0, pA⟩).1 ⟨gB, nB, n.name, 0, pB⟩).1).objects := by
    obtain ⟨he, -⟩ := updateClassStatus_ok_parts hstatus
    rw [he]
  have hrem : diffRemoved (toNameGVKMap ([] : List RawExtension))
      (toNameGVKMap cls.resources) = [] := rfl
  have hrun : reconcileClassUpdates c cls = (S3, none) := by
    rw [reconcileClassUpdates_eq_of_list_ok hl, hlist, List.foldl_cons,
      List.foldl_nil, hlast, hrem, reconcileNamespaceForClass_removed_nil,
      hfold, hstatus]
  refine ⟨by rw [hrun], ?_, ?_, ?_⟩
  · rw [hrun]
    show lookupObj S3.objects ⟨gA, nA, n.name⟩ = some ⟨c.nextRV, pA⟩
    rw [hS3obj, upsert_fst_lookup_ne hkAB]
    exact hlkA1
  · rw [hrun]
    show lookupObj S3.objects ⟨gB, nB, n.name⟩ = some ⟨c.nextRV + 1, pB⟩
    rw [hS3obj]
    rw [show (⟨gB, nB, n.name⟩ : ObjKey) =
      keyOf ⟨gB, nB, n.name, 0, pB⟩ from rfl, hlkB2, hrv1]
  · intro k hkA hkB
    rw [hrun]
    show lookupObj S3.objects k = lookupObj c.objects k
    rw [hS3obj, upsert_fst_lookup_ne hkB, upsert_fst_lookup_ne hkA]

/-! ### Claim C5 -/

/-- C5: a classification that previously applied templates A and B and whose
spec now holds only A, reconciled with no store faults over two referencing
namespaces — n1 carrying cleanup-obsolete "true", n2 not — leaves n1 with
only A's object (holding A's latest payload; B's object deleted) and n2
with both A's object (latest payload) and B's old object untouched. -/
theorem C5_cleanup_obsolete_optin (c : Cluster) (cls : NamespaceClass)
    (n1 n2 : KNamespace) (gA gB : GVK) (nA nB pA pA0 pB0 : String)
    (oldA1 oldB1 oldA2 oldB2 : StoredObj)
    (hres : cls.resources = [RawExtension.valid gA nA pA])
    (hlast : cls.lastAppliedResources =
      [RawExtension.valid gA nA pA0, RawExtension.valid gB nB pB0])
    (hAB : ¬ nA = nB) (h12 : ¬ n1.name = n2.name)
    (hlist : listNamespacesWithLabel c cls.name = [n1, n2])
    (hclean1 : lookupAssoc n1.annots NamespaceClassCleanupObsoleteKey = some "true")
    (hclean2 : ¬ lookupAssoc n2.annots NamespaceClassCleanupObsoleteKey = some "true")
    (hfg : c.failGet = []) (hfc : c.failCreate = []) (hfu : c.failUpdate = [])
    (hfd : c.failDelete = []) (hl : c.failListNs = false)
    (_hA1 : lookupObj c.objects ⟨gA, nA, n1.name⟩ = some oldA1)
    (hB1 : lookupObj c.objects ⟨gB, nB, n1.name⟩ = some oldB1)
    (_hA2 : lookupObj c.objects ⟨gA, nA, n2.name⟩ = some oldA2)
    (hB2 : lookupObj c.objects ⟨gB, nB, n2.name⟩ = some oldB2) :
    lookupObj (reconcileClassUpdates c cls).1.objects ⟨gA, nA, n1.name⟩ =
      some ⟨c.nextRV, pA⟩ ∧
    lookupObj (reconcileClassUpdates c cls).1.objects ⟨gB, nB, n1.name⟩ = none ∧
    lookupObj (reconcileClassUpdates c cls).1.objects ⟨gA, nA, n2.name⟩ =
      some ⟨c.nextRV + 1, pA⟩ ∧
    lookupObj (reconcileClassUpdates c cls).1.objects ⟨gB, nB, n2.name⟩ =
      some oldB2 := by
  have hne1 : ¬ (⟨gB, nB, n1.name⟩ : ObjKey) = ⟨gA, nA, n1.name⟩ := by
    intro e; injection e with _ e2 _; exact hAB e2.symm
  have hne2 : ¬ (⟨gA, nA, n1.name⟩ : ObjKey) = ⟨gB, nB, n1.name⟩ := by
    intro e; injection e with _ e2 _; exact hAB e2
  have hne5 : ¬ (⟨gB, nB, n2.name⟩ : ObjKey) = ⟨gA, nA, n2.name⟩ := by
    intro e; injection e with _ e2 _; exact hAB e2.symm
  have hne7 : ¬ (⟨gB, nB, n2.name⟩ : ObjKey) = ⟨gB, nB, n1.name⟩ := by
    intro e; injection e with _ _ e3; exact h12 e3.symm
  have hne8 : ¬ (⟨gA, nA, n1.name⟩ : ObjKey) = ⟨gA, nA, n2.name⟩ := by
    intro e; injection e with _ _ e3; exact h12 e3
  have hne9 : ¬ (⟨gB, nB, n1.name⟩ : ObjKey) = ⟨gA, nA, n2.name⟩ := by
    intro e; injection e with _ e2 _; exact hAB e2.symm
  -- the removed map is exactly B
  have hmapLast : toNameGVKMap cls.lastAppliedResources =
      insertNameGVK (insertNameGVK [] nA gA) nB gB := by
    rw [hlast]
    rfl
  have hins2 : insertNameGVK [((nA : String), gA)] nB gB =
      [(nA, gA), (nB, gB)] := by
    have hf : ([((nA : String), gA)].find? (fun p => p.1 = nB)) = none := by
      rw [List.find?_cons_of_neg _ (by simp [hAB])]
      rfl
    unfold insertNameGVK
    rw [hf]
    rfl
  have hmap : toNameGVKMap cls.lastAppliedResources = [(nA, gA), (nB, gB)] := by
    rw [hmapLast]
    rw [show insertNameGVK [] nA gA = [((nA : String), gA)] from rfl, hins2]
  have hcur : toNameGVKMap cls.resources = [(nA, gA)] := by
    rw [hres]
    rfl
  have hremoved : diffRemoved (toNameGVKMap cls.lastAppliedResources)
      (toNameGVKMap cls.resources) = [(nB, gB)] := by
    rw [hmap, hcur]
    simp [diffRemoved, lookupGVK, List.find?, List.filter, hAB]
  -- namespace n1: update A, then delete B
  obtain ⟨hshU1, -⟩ := upsert_fst_shape c ⟨gA, nA, n1.name, 0, pA⟩
  obtain ⟨uA1, -, hrvU1⟩ :=
    @upsert_fst_lookup_self c ⟨gA, nA, n1.name, 0, pA⟩
      (by simp [hfg]) (by simp [hfc]) (by simp [hfu])
  have uB1 : lookupObj ((upsert c ⟨gA, nA, n1.name, 0, pA⟩).1).objects
      ⟨gB, nB, n1.name⟩ = some oldB1 := by
    rw [upsert_fst_lookup_ne hne1]
    exact hB1
  have uB2 : lookupObj ((upsert c ⟨gA, nA, n1.name, 0, pA⟩).1).objects
      ⟨gB, nB, n2.name⟩ = some oldB2 := by
    rw [upsert_fst_lookup_ne (by intro e; injection e with _ _ e3; exact h12 e3.symm)]
    exact hB2
  have hfdU1 : ¬ (⟨gB, nB, n1.name⟩ : ObjKey) ∈
      ((upsert c ⟨gA, nA, n1.name, 0, pA⟩).1).failDelete := by
    rw [hshU1.2.2.2.2.2.1, hfd]
    simp
  have hdel1 : clusterDelete (upsert c ⟨gA, nA, n1.name, 0, pA⟩).1
      ⟨gB, nB, n1.name⟩ =
      .ok { (upsert c ⟨gA, nA, n1.name, 0, pA⟩).1 with
              objects := removeObj
                ((upsert c ⟨gA, nA, n1.name, 0, pA⟩).1).objects
                ⟨gB, nB, n1.name⟩ } :=
    clusterDelete_eq_ok hfdU1 uB1
  have hstep1 : reconcileNamespaceForClass c n1 cls [(nB, gB)] =
      { (upsert c ⟨gA, nA, n1.name, 0, pA⟩).1 with
          objects := removeObj
            ((upsert c ⟨gA, nA, n1.name, 0, pA⟩).1).objects
            ⟨gB, nB, n1.name⟩ } := by
    rw [reconcileNamespaceForClass_cleanup_true hclean1, hres,
      upsertResources_cons_valid, upsertResources_nil, deleteRemoved_cons_pair,
      hdel1, deleteRemoved_nil]
  -- facts about the n1 result
  have dA1 : lookupObj ({ (upsert c ⟨gA, nA, n1.name, 0, pA⟩).1 with
      objects := removeObj ((upsert c ⟨gA, nA, n1.name, 0, pA⟩).1).objects
        ⟨gB, nB, n1.name⟩ } : Cluster).objects ⟨gA, nA, n1.name⟩ =
      some ⟨c.nextRV, pA⟩ := by
    show lookupObj (removeObj ((upsert c ⟨gA, nA, n1.name, 0, pA⟩).1).objects
      ⟨gB, nB, n1.name⟩) ⟨gA, nA, n1.name⟩ = some ⟨c.nextRV, pA⟩
    rw [lookupObj_removeObj_ne _ _ _ hne2]
    exact uA1
  have dB1 : lookupObj ({ (upsert c ⟨gA, nA, n1.name, 0, pA⟩).1 with
      objects := removeObj ((upsert c ⟨gA, nA, n1.name, 0, pA⟩).1).objects
        ⟨gB, nB, n1.name⟩ } : Cluster).objects ⟨gB, nB, n1.name⟩ = none := by
    show lookupObj (removeObj ((upsert c ⟨gA, nA, n1.name, 0, pA⟩).1).objects
      ⟨gB, nB, n1.name⟩) ⟨gB, nB, n1.name⟩ = none
    exact lookupObj_removeObj_self _ _
  have dB2 : lookupObj ({ (upsert c ⟨gA, nA, n1.name, 0, pA⟩).1 with
      objects := removeObj ((upsert c ⟨gA, nA, n1.name, 0, pA⟩).1).objects
        ⟨gB, nB, n1.name⟩ } : Cluster).objects ⟨gB, nB, n2.name⟩ =
      some oldB2 := by
    show lookupObj (removeObj ((upsert c ⟨gA, nA, n1.name, 0, pA⟩).1).objects
      ⟨gB, nB, n1.name⟩) ⟨gB, nB, n2.name⟩ = some oldB2
    rw [lookupObj_removeObj_ne _ _ _ hne7]
    exact uB2
  -- namespace n2: update A only
  have hstep2 : reconcileNamespaceForClass
      ({ (upsert c ⟨gA, nA, n1.name, 0, pA⟩).1 with
          objects := removeObj ((upsert c ⟨gA, nA, n1.name, 0, pA⟩).1).objects
            ⟨gB, nB, n1.name⟩ } : Cluster) n2 cls [(nB, gB)] =
      (upsert ({ (upsert c ⟨gA, nA, n1.name, 0, pA⟩).1 with
          objects := removeObj ((upsert c ⟨gA, nA, n1.name, 0, pA⟩).1).objects
            ⟨gB, nB, n1.name⟩ } : Cluster) ⟨gA, nA, n2.name, 0, pA⟩).1 := by
    rw [reconcileNamespaceForClass_cleanup_false hclean2, hres,
      upsertResources_cons_valid, upsertResources_nil]
  obtain ⟨vA2, -, -⟩ :=
    @upsert_fst_lookup_self
      ({ (upsert c ⟨gA, nA, n1.name, 0, pA⟩).1 with
          objects := removeObj ((upsert c ⟨gA, nA, n1.name, 0, pA⟩).1).objects
            ⟨gB, nB, n1.name⟩ } : Cluster)
      ⟨gA, nA, n2.name, 0, pA⟩
      (by show ¬ _ ∈ ((upsert c ⟨gA, nA, n1.name, 0, pA⟩).1).failGet
          rw [hshU1.2.2.1, hfg]; simp)
      (by show ¬ _ ∈ ((upsert c ⟨gA, nA, n1.name, 0, pA⟩).1).failCreate
          rw [hshU1.2.2.2.1, hfc]; simp)
      (by show ¬ _ ∈ ((upsert c ⟨gA, nA, n1.name, 0, pA⟩).1).failUpdate
          rw [hshU1.2.2.2.2.1, hfu]; simp)
  have hobj : (reconcileClassUpdates c cls).1.objects =
      ((upsert ({ (upsert c ⟨gA, nA, n1.name, 0, pA⟩).1 with
          objects := removeObj ((upsert c ⟨gA, nA, n1.name, 0, pA⟩).1).objects
            ⟨gB, nB, n1.name⟩ } : Cluster) ⟨gA, nA, n2.name, 0, pA⟩).1).objects := by
    rw [reconcileClassUpdates_eq_of_list_ok hl]
    simp only [hlist, List.foldl_cons, List.foldl_nil]
    rw [hremoved, hstep1, hstep2]
    cases hst : updateClassStatus
        (upsert ({ (upsert c ⟨gA, nA, n1.name, 0, pA⟩).1 with
          objects := removeObj ((upsert c ⟨gA, nA, n1.name, 0, pA⟩).1).objects
            ⟨gB, nB, n1.name⟩ } : Cluster) ⟨gA, nA, n2.name, 0, pA⟩).1
        { cls with lastAppliedResources := cls.resources } with
    | error e => rfl
    | ok c2 =>
        obtain ⟨he, -⟩ := updateClassStatus_ok_parts hst
        subst he
        rfl
  refine ⟨?_, ?_, ?_, ?_⟩
  · rw [hobj, upsert_fst_lookup_ne hne8]
    exact dA1
  · rw [hobj, upsert_fst_lookup_ne hne9]
    exact dB1
  · rw [show (⟨gA, nA, n2.name⟩ : ObjKey) =
      keyOf ⟨gA, nA, n2.name, 0, pA⟩ from rfl] at *
    rw [hobj, vA2]
    show some (⟨_, pA⟩ : StoredObj) = some ⟨c.nextRV + 1, pA⟩
    rw [show ({ (upsert c ⟨gA, nA, n1.name, 0, pA⟩).1 with
      objects := removeObj ((upsert c ⟨gA, nA, n1.name, 0, pA⟩).1).objects
        ⟨gB, nB, n1.name⟩ } : Cluster).nextRV =
      ((upsert c ⟨gA, nA, n1.name, 0, pA⟩).1).nextRV from rfl, hrvU1]
  · rw [hobj, upsert_fst_lookup_ne hne5]
    exact dB2

/-! ### Claim C6 -/

/-- C6: on classification deletion with two referencing namespaces — n1
with the cleanup annotation "true", n2 without — the cleanup pass deletes
the object of every parseable spec template from n1 (an already-absent
object is fine: no error either way), touches nothing outside n1, records
exactly one orphaned-reference warning naming the deleted class against n2,
and the overall result carries no error. -/
theorem C6_deletion_cleanup_optin (c : Cluster) (className : String)
    (cls : NamespaceClass) (n1 n2 : KNamespace)
    (hcls : findClass c className = some cls)
    (hl : c.failListNs = false) (hfd : c.failDelete = [])
    (hlist : listNamespacesWithLabel c className = [n1, n2])
    (hclean1 : lookupAssoc n1.annots NamespaceClassCleanupKey = some "true")
    (hclean2 : ¬ lookupAssoc n2.annots NamespaceClassCleanupKey = some "true") :
    (reconcileNamespaceClassDelete c className).2 = none ∧
    (∀ raw ∈ cls.resources, ∀ t, unmarshalJSON raw = some t →
      lookupObj (reconcileNamespaceClassDelete c className).1.objects
        ⟨t.gvk, t.name, n1.name⟩ = none) ∧
    (∀ k : ObjKey, ¬ k.ns = n1.name →
      lookupObj (reconcileNamespaceClassDelete c className).1.objects k =
        lookupObj c.objects k) ∧
    (reconcileNamespaceClassDelete c className).1.events =
      ⟨n2.name, "Warning", "OrphanedNamespaceClass", className⟩ :: c.events := by
  have heq := reconcileNamespaceClassDelete_eq hl hcls
  have hfold : (listNamespacesWithLabel c className).foldl
      (fun acc ns =>
        if lookupAssoc ns.annots NamespaceClassCleanupKey = some "true" then
          deleteResources acc ns.name cls.resources
        else recordEvent acc ns.name "OrphanedNamespaceClass" className) c =
      recordEvent (deleteResources c n1.name cls.resources) n2.name
        "OrphanedNamespaceClass" className := by
    simp only [hlist, List.foldl_cons, List.foldl_nil, hclean1, hclean2,
      if_true, if_false, ite_true, ite_false, eq_self_iff_true]
  rw [heq, hfold]
  refine ⟨rfl, ?_, ?_, ?_⟩
  · intro raw hmem t hparse
    show lookupObj (deleteResources c n1.name cls.resources).objects
      ⟨t.gvk, t.name, n1.name⟩ = none
    exact deleteResources_deletes cls.resources n1.name hfd raw hmem t hparse
  · intro k hk
    show lookupObj (deleteResources c n1.name cls.resources).objects k =
      lookupObj c.objects k
    exact deleteResources_frame_ns cls.resources n1.name hk
  · show (⟨n2.name, "Warning", "OrphanedNamespaceClass", className⟩ : KEvent) ::
      (deleteResources c n1.name cls.resources).events =
      ⟨n2.name, "Warning", "OrphanedNamespaceClass", className⟩ :: c.events
    rw [(deleteResources_shape cls.resources n1.name c).2]

/-- C8 witness: both valid ConfigMaps are materialized around the malformed
entry, and the reconcile reports no error. -/
theorem C8_witness :
    (reconcileClassUpdates
        { objects := [],
          namespaces := [⟨"ns1", [(NamespaceClassNameKey, "cls")], []⟩],
          classes := [⟨"cls", none, [],
            [RawExtension.valid ⟨"", "v1", "ConfigMap"⟩ "a" "pa",
             RawExtension.malformed "junk",
             RawExtension.valid ⟨"", "v1", "ConfigMap"⟩ "b" "pb"], []⟩],
          events := [], nextRV := 0, failGet := [], failCreate := [],
          failUpdate := [], failDelete := [], failListNs := false,
          failClassUpdate := false, failStatusUpdate := false }
        ⟨"cls", none, [],
          [RawExtension.valid ⟨"", "v1", "ConfigMap"⟩ "a" "pa",
           RawExtension.malformed "junk",
           RawExtension.valid ⟨"", "v1", "ConfigMap"⟩ "b" "pb"], []⟩).2 = none ∧
    lookupObj (reconcileClassUpdates
        { objects := [],
          namespaces := [⟨"ns1", [(NamespaceClassNameKey, "cls")], []⟩],
          classes := [⟨"cls", none, [],
            [RawExtension.valid ⟨"", "v1", "ConfigMap"⟩ "a" "pa",
             RawExtension.malformed "junk",
             RawExtension.valid ⟨"", "v1", "ConfigMap"⟩ "b" "pb"], []⟩],
          events := [], nextRV := 0, failGet := [], failCreate := [],
          failUpdate := [], failDelete := [], failListNs := false,
          failClassUpdate := false, failStatusUpdate := false }
        ⟨"cls", none, [],
          [RawExtension.valid ⟨"", "v1", "ConfigMap"⟩ "a" "pa",
           RawExtension.malformed "junk",
           RawExtension.valid ⟨"", "v1", "ConfigMap"⟩ "b" "pb"], []⟩).1.objects
      ⟨⟨"", "v1", "ConfigMap"⟩, "a", "ns1"⟩ = some ⟨0, "pa"⟩ ∧
    lookupObj (reconcileClassUpdates
        { objects := [],
          namespaces := [⟨"ns1", [(NamespaceClassNameKey, "cls")], []⟩],
          classes := [⟨"cls", none, [],
            [RawExtension.valid ⟨"", "v1", "ConfigMap"⟩ "a" "pa",
             RawExtension.malformed "junk",
             RawExtension.valid ⟨"", "v1", "ConfigMap"⟩ "b" "pb"], []⟩],
          events := [], nextRV := 0, failGet := [], failCreate := [],
          failUpdate := [], failDelete := [], failListNs := false,
          failClassUpdate := false, failStatusUpdate := false }
        ⟨"cls", none, [],
          [RawExtension.valid ⟨"", "v1", "ConfigMap"⟩ "a" "pa",
           RawExtension.malformed "junk",
           RawExtension.valid ⟨"", "v1", "ConfigMap"⟩ "b" "pb"], []⟩).1.objects
      ⟨⟨"", "v1", "ConfigMap"⟩, "b", "ns1"⟩ = some ⟨1, "pb"⟩ := by
  have h := C8_partial_failure_isolation
    { objects := [],
      namespaces := [⟨"ns1", [(NamespaceClassNameKey, "cls")], []⟩],
      classes := [⟨"cls", none, [],
        [RawExtension.valid ⟨"", "v1", "ConfigMap"⟩ "a" "pa",
         RawExtension.malformed "junk",
         RawExtension.valid ⟨"", "v1", "ConfigMap"⟩ "b" "pb"], []⟩],
      events := [], nextRV := 0, failGet := [], failCreate := [],
      failUpdate := [], failDelete := [], failListNs := false,
      failClassUpdate := false, failStatusUpdate := false }
    ⟨"cls", none, [],
      [RawExtension.valid ⟨"", "v1", "ConfigMap"⟩ "a" "pa",
       RawExtension.malformed "junk",
       RawExtension.valid ⟨"", "v1", "ConfigMap"⟩ "b" "pb"], []⟩
    ⟨"ns1", [(NamespaceClassNameKey, "cls")], []⟩
    ⟨"", "v1", "ConfigMap"⟩ ⟨"", "v1", "ConfigMap"⟩ "a" "b" "pa" "pb" "junk"
    (by decide) (by decide) (by decide) (by decide) (by decide) (by decide)
    (by decide) (by decide) (by decide) (by decide) (by decide) (by decide)
  exact ⟨h.1, h.2.1, h.2.2.1⟩

/-- C5 witness: spec shrunk from {a, b} to {a}; the cleanup-obsolete
namespace ns1 ends with only a's object at the latest payload, ns2 keeps
b's old object. -/
theorem C5_witness :
    lookupObj (reconcileClassUpdates
        { objects := [(⟨⟨"", "v1", "ConfigMap"⟩, "a", "ns1"⟩, ⟨1, "pa0"⟩),
                      (⟨⟨"", "v1", "ConfigMap"⟩, "b", "ns1"⟩, ⟨2, "pb0"⟩),
                      (⟨⟨"", "v1", "ConfigMap"⟩, "a", "ns2"⟩, ⟨3, "pa0"⟩),
                      (⟨⟨"", "v1", "ConfigMap"⟩, "b", "ns2"⟩, ⟨4, "pb0"⟩)],
          namespaces := [⟨"ns1", [(NamespaceClassNameKey, "cls")],
              [(NamespaceClassCleanupObsoleteKey, "true")]⟩,
            ⟨"ns2", [(NamespaceClassNameKey, "cls")], []⟩],
          classes := [⟨"cls", none, [],
            [RawExtension.valid ⟨"", "v1", "ConfigMap"⟩ "a" "pa"],
            [RawExtension.valid ⟨"", "v1", "ConfigMap"⟩ "a" "pa0",
             RawExtension.valid ⟨"", "v1", "ConfigMap"⟩ "b" "pb0"]⟩],
          events := [], nextRV := 5, failGet := [], failCreate := [],
          failUpdate := [], failDelete := [], failListNs := false,
          failClassUpdate := false, failStatusUpdate := false }
        ⟨"cls", none, [],
          [RawExtension.valid ⟨"", "v1", "ConfigMap"⟩ "a" "pa"],
          [RawExtension.valid ⟨"", "v1", "ConfigMap"⟩ "a" "pa0",
           RawExtension.valid ⟨"", "v1", "ConfigMap"⟩ "b" "pb0"]⟩).1.objects
      ⟨⟨"", "v1", "ConfigMap"⟩, "a", "ns1"⟩ = some ⟨5, "pa"⟩ ∧
    lookupObj (reconcileClassUpdates
        { objects := [(⟨⟨"", "v1", "ConfigMap"⟩, "a", "ns1"⟩, ⟨1, "pa0"⟩),
                      (⟨⟨"", "v1", "ConfigMap"⟩, "b", "ns1"⟩, ⟨2, "pb0"⟩),
                      (⟨⟨"", "v1", "ConfigMap"⟩, "a", "ns2"⟩, ⟨3, "pa0"⟩),
                      (⟨⟨"", "v1", "ConfigMap"⟩, "b", "ns2"⟩, ⟨4, "pb0"⟩)],
          namespaces := [⟨"ns1", [(NamespaceClassNameKey, "cls")],
              [(NamespaceClassCleanupObsoleteKey, "true")]⟩,
            ⟨"ns2", [(NamespaceClassNameKey, "cls")], []⟩],
          classes := [⟨"cls", none, [],
            [RawExtension.valid ⟨"", "v1", "ConfigMap"⟩ "a" "pa"],
            [RawExtension.valid ⟨"", "v1", "ConfigMap"⟩ "a" "pa0",
             RawExtension.valid ⟨"", "v1", "ConfigMap"⟩ "b" "pb0"]⟩],
          events := [], nextRV := 5, failGet := [], failCreate := [],
          failUpdate := [], failDelete := [], failListNs := false,
          failClassUpdate := false, failStatusUpdate := false }
        ⟨"cls", none, [],
          [RawExtension.valid ⟨"", "v1", "ConfigMap"⟩ "a" "pa"],
          [RawExtension.valid ⟨"", "v1", "ConfigMap"⟩ "a" "pa0",
           RawExtension.valid ⟨"", "v1", "ConfigMap"⟩ "b" "pb0"]⟩).1.objects
      ⟨⟨"", "v1", "ConfigMap"⟩, "b", "ns1"⟩ = none ∧
    lookupObj (reconcileClassUpdates
        { objects := [(⟨⟨"", "v1", "ConfigMap"⟩, "a", "ns1"⟩, ⟨1, "pa0"⟩),
                      (⟨⟨"", "v1", "ConfigMap"⟩, "b", "ns1"⟩, ⟨2, "pb0"⟩),
                      (⟨⟨"", "v1", "ConfigMap"⟩, "a", "ns2"⟩, ⟨3, "pa0"⟩),
                      (⟨⟨"", "v1", "ConfigMap"⟩, "b", "ns2"⟩, ⟨4, "pb0"⟩)],
          namespaces := [⟨"ns1", [(NamespaceClassNameKey, "cls")],
              [(NamespaceClassCleanupObsoleteKey, "true")]⟩,
            ⟨"ns2", [(NamespaceClassNameKey, "cls")], []⟩],
          classes := [⟨"cls", none, [],
            [RawExtension.valid ⟨"", "v1", "ConfigMap"⟩ "a" "pa"],
            [RawExtension.valid ⟨"", "v1", "ConfigMap"⟩ "a" "pa0",
             RawExtension.valid ⟨"", "v1", "ConfigMap"⟩ "b" "pb0"]⟩],
          events := [], nextRV := 5, failGet := [], failCreate := [],
          failUpdate := [], failDelete := [], failListNs := false,
          failClassUpdate := false, failStatusUpdate := false }
        ⟨"cls", none, [],
          [RawExtension.valid ⟨"", "v1", "ConfigMap"⟩ "a" "pa"],
          [RawExtension.valid ⟨"", "v1", "ConfigMap"⟩ "a" "pa0",
           RawExtension.valid ⟨"", "v1", "ConfigMap"⟩ "b" "pb0"]⟩).1.objects
      ⟨⟨"", "v1", "ConfigMap"⟩, "b", "ns2"⟩ = some ⟨4, "pb0"⟩ := by
  have h := C5_cleanup_obsolete_optin
    { objects := [(⟨⟨"", "v1", "ConfigMap"⟩, "a", "ns1"⟩, ⟨1, "pa0"⟩),
                  (⟨⟨"", "v1", "ConfigMap"⟩, "b", "ns1"⟩, ⟨2, "pb0"⟩),
                  (⟨⟨"", "v1", "ConfigMap"⟩, "a", "ns2"⟩, ⟨3, "pa0"⟩),
                  (⟨⟨"", "v1", "ConfigMap"⟩, "b", "ns2"⟩, ⟨4, "pb0"⟩)],
      namespaces := [⟨"ns1", [(NamespaceClassNameKey, "cls")],
          [(NamespaceClassCleanupObsoleteKey, "true")]⟩,
        ⟨"ns2", [(NamespaceClassNameKey, "cls")], []⟩],
      classes := [⟨"cls", none, [],
        [RawExtension.valid ⟨"", "v1", "ConfigMap"⟩ "a" "pa"],
        [RawExtension.valid ⟨"", "v1", "ConfigMap"⟩ "a" "pa0",
         RawExtension.valid ⟨"", "v1", "ConfigMap"⟩ "b" "pb0"]⟩],
      events := [], nextRV := 5, failGet := [], failCreate := [],
      failUpdate := [], failDelete := [], failListNs := false,
      failClassUpdate := false, failStatusUpdate := false }
    ⟨"cls", none, [],
      [RawExtension.valid ⟨"", "v1", "ConfigMap"⟩ "a" "pa"],
      [RawExtension.valid ⟨"", "v1", "ConfigMap"⟩ "a" "pa0",
       RawExtension.valid ⟨"", "v1", "ConfigMap"⟩ "b" "pb0"]⟩
    ⟨"ns1", [(NamespaceClassNameKey, "cls")],
      [(NamespaceClassCleanupObsoleteKey, "true")]⟩
    ⟨"ns2", [(NamespaceClassNameKey, "cls")], []⟩
    ⟨"", "v1", "ConfigMap"⟩ ⟨"", "v1", "ConfigMap"⟩ "a" "b" "pa" "pa0" "pb0"
    ⟨1, "pa0"⟩ ⟨2, "pb0"⟩ ⟨3, "pa0"⟩ ⟨4, "pb0"⟩
    (by decide) (by decide) (by decide) (by decide) (by decide) (by decide)
    (by decide) (by decide) (by decide) (by decide) (by decide) (by decide)
    (by decide) (by decide) (by decide) (by decide)
  exact ⟨h.1, h.2.1, h.2.2.2⟩

/-- C6 witness: deleting the class removes its ConfigMap from the opted-in
ns1 only, leaves ns2's copy untouched, and records exactly one warning for
ns2 naming the deleted class, with no overall error. -/
theorem C6_witness :
    (reconcileNamespaceClassDelete
        { objects := [(⟨⟨"", "v1", "ConfigMap"⟩, "a", "ns1"⟩, ⟨1, "pa"⟩),
                      (⟨⟨"", "v1", "ConfigMap"⟩, "a", "ns2"⟩, ⟨2, "pa"⟩)],
          namespaces := [⟨"ns1", [(NamespaceClassNameKey, "cls")],
              [(NamespaceClassCleanupKey, "true")]⟩,
            ⟨"ns2", [(NamespaceClassNameKey, "cls")], []⟩],
          classes := [⟨"cls", some 1, [NamespaceClassFinalizerKey],
            [RawExtension.valid ⟨"", "v1", "ConfigMap"⟩ "a" "pa"], []⟩],
          events := [], nextRV := 3, failGet := [], failCreate := [],
          failUpdate := [], failDelete := [], failListNs := false,
          failClassUpdate := false, failStatusUpdate := false } "cls").2 = none ∧
    lookupObj (reconcileNamespaceClassDelete
        { objects := [(⟨⟨"", "v1", "ConfigMap"⟩, "a", "ns1"⟩, ⟨1, "pa"⟩),
                      (⟨⟨"", "v1", "ConfigMap"⟩, "a", "ns2"⟩, ⟨2, "pa"⟩)],
          namespaces := [⟨"ns1", [(NamespaceClassNameKey, "cls")],
              [(NamespaceClassCleanupKey, "true")]⟩,
            ⟨"ns2", [(NamespaceClassNameKey, "cls")], []⟩],
          classes := [⟨"cls", some 1, [NamespaceClassFinalizerKey],
            [RawExtension.valid ⟨"", "v1", "ConfigMap"⟩ "a" "pa"], []⟩],
          events := [], nextRV := 3, failGet := [], failCreate := [],
          failUpdate := [], failDelete := [], failListNs := false,
          failClassUpdate := false, failStatusUpdate := false } "cls").1.objects
      ⟨⟨"", "v1", "ConfigMap"⟩, "a", "ns1"⟩ = none ∧
    lookupObj (reconcileNamespaceClassDelete
        { objects := [(⟨⟨"", "v1", "ConfigMap"⟩, "a", "ns1"⟩, ⟨1, "pa"⟩),
                      (⟨⟨"", "v1", "ConfigMap"⟩, "a", "ns2"⟩, ⟨2, "pa"⟩)],
          namespaces := [⟨"ns1", [(NamespaceClassNameKey, "cls")],
              [(NamespaceClassCleanupKey, "true")]⟩,
            ⟨"ns2", [(NamespaceClassNameKey, "cls")], []⟩],
          classes := [⟨"cls", some 1, [NamespaceClassFinalizerKey],
            [RawExtension.valid ⟨"", "v1", "ConfigMap"⟩ "a" "pa"], []⟩],
          events := [], nextRV := 3, failGet := [], failCreate := [],
          failUpdate := [], failDelete := [], failListNs := false,
          failClassUpdate := false, failStatusUpdate := false } "cls").1.objects
      ⟨⟨"", "v1", "ConfigMap"⟩, "a", "ns2"⟩ = some ⟨2, "pa"⟩ ∧
    (reconcileNamespaceClassDelete
        { objects := [(⟨⟨"", "v1", "ConfigMap"⟩, "a", "ns1"⟩, ⟨1, "pa"⟩),
                      (⟨⟨"", "v1", "ConfigMap"⟩, "a", "ns2"⟩, ⟨2, "pa"⟩)],
          namespaces := [⟨"ns1", [(NamespaceClassNameKey, "cls")],
              [(NamespaceClassCleanupKey, "true")]⟩,
            ⟨"ns2", [(NamespaceClassNameKey, "cls")], []⟩],
          classes := [⟨"cls", some 1, [NamespaceClassFinalizerKey],
            [RawExtension.valid ⟨"", "v1", "ConfigMap"⟩ "a" "pa"], []⟩],
          events := [], nextRV := 3, failGet := [], failCreate := [],
          failUpdate := [], failDelete := [], failListNs := false,
          failClassUpdate := false, failStatusUpdate := false } "cls").1.events =
      [⟨"ns2", "Warning", "OrphanedNamespaceClass", "cls"⟩] := by
  have h := C6_deletion_cleanup_optin
    { objects := [(⟨⟨"", "v1", "ConfigMap"⟩, "a", "ns1"⟩, ⟨1, "pa"⟩),
                  (⟨⟨"", "v1", "ConfigMap"⟩, "a", "ns2"⟩, ⟨2, "pa"⟩)],
      namespaces := [⟨"ns1", [(NamespaceClassNameKey, "cls")],
          [(NamespaceClassCleanupKey, "true")]⟩,
        ⟨"ns2", [(NamespaceClassNameKey, "cls")], []⟩],
      classes := [⟨"cls", some 1, [NamespaceClassFinalizerKey],
        [RawExtension.valid ⟨"", "v1", "ConfigMap"⟩ "a" "pa"], []⟩],
      events := [], nextRV := 3, failGet := [], failCreate := [],
      failUpdate := [], failDelete := [], failListNs := false,
      failClassUpdate := false, failStatusUpdate := false } "cls"
    ⟨"cls", some 1, [NamespaceClassFinalizerKey],
      [RawExtension.valid ⟨"", "v1", "ConfigMap"⟩ "a" "pa"], []⟩
    ⟨"ns1", [(NamespaceClassNameKey, "cls")],
      [(NamespaceClassCleanupKey, "true")]⟩
    ⟨"ns2", [(NamespaceClassNameKey, "cls")], []⟩
    (by decide) (by decide) (by decide) (by decide) (by decide) (by decide)
  refine ⟨h.1, ?_, h.2.2.1 ⟨⟨"", "v1", "ConfigMap"⟩, "a", "ns2"⟩ (by decide), h.2.2.2⟩
  exact h.2.1 (RawExtension.valid ⟨"", "v1", "ConfigMap"⟩ "a" "pa")
    (by decide) ⟨⟨"", "v1", "ConfigMap"⟩, "a", "", 0, "pa"⟩ (by decide)

end NSClass
